import Mathlib

set_option maxRecDepth 100000

/-!
# SysV backend of the service package (`service_sysv_linux.go`)

The file has two halves.

* The installer: `configPath`, `Install` and `Uninstall`.  They are embedded as
  state-passing functions over an interface `Syscalls σ` of the operating-system
  calls they make (`os.Stat`, `os.Create`, ..., and the package helper `run`).
  The theorems quantify over every implementation of the interface; `linux` is
  a small concrete filesystem used for closed examples.
* The control script `sysvScript`: its text is rendered by `sysvScript`, and
  the state machine the text describes (`start`, `stop`, `restart`, `status`)
  is embedded as functions over the pid file and a process table.
-/

namespace Sysv

/-! ## Errors -/

/-- Error numbers a system call can fail with. -/
inductive Errno
  | ENOENT
  | EEXIST
  | EACCES
  | ENOTDIR
  | EISDIR
  | ENOTEMPTY
  | ELOOP
  | EBADF
deriving DecidableEq, Repr

/-- Go `error` values: a text error (`errors.New`, `fmt.Errorf`) or the
`*os.PathError` of a failed system call. -/
inductive GoError
  | errorString (s : String)
  | pathError (op : String) (path : String) (errno : Errno)
deriving DecidableEq, Repr

/-- Go `os.IsNotExist(err)`: true exactly for an error that wraps `ENOENT`;
false for `nil` and for every other error. -/
def IsNotExist : Option GoError → Bool
  | some (GoError.pathError _ _ Errno.ENOENT) => true
  | _ => false

/-! ## Configuration -/

/-- The fields of `Config` that this file reads.  `UserService` is the value of
`s.Option.bool(optionUserService, optionUserServiceDefault)`: the option map,
its lookup and the two constants are declared in another file of the package. -/
structure Config where
  Name : String
  DisplayName : String
  Description : String
  UserName : String
  Arguments : List String
  Executable : String
  WorkingDirectory : String
  UserService : Bool
deriving DecidableEq, Repr

/-- Go `var errNoUserServiceSystemV`. -/
def errNoUserServiceSystemV : GoError :=
  GoError.errorString "User services are not supported on SystemV."

/-- Go `(*sysv).configPath`. -/
def configPath (s : Config) : Except GoError String :=
  if s.UserService then
    Except.error errNoUserServiceSystemV
  else
    Except.ok ("/etc/init.d/" ++ s.Name)

/-! ## The control-script template -/

/-- The value `to` that `Install` passes to the template: the configuration
and the executable path. -/
structure TemplateData where
  config : Config
  Path : String
deriving DecidableEq, Repr

/-- Template lines 195-236: the header, the variables and the two helper
functions, up to `case "$1" in`. -/
def headLines (cmd : String → String) (data : TemplateData) : List String :=
  [ "#!/bin/sh",
    "# For RedHat and cousins:",
    "# chkconfig: - 99 01",
    "# description: " ++ data.config.Description,
    "# processname: " ++ data.Path,
    "",
    "### BEGIN INIT INFO",
    "# Provides:          " ++ data.Path,
    "# Required-Start:",
    "# Required-Stop:",
    "# Default-Start:     2 3 4 5",
    "# Default-Stop:      0 1 6",
    "# Short-Description: " ++ data.config.DisplayName,
    "# Description:       " ++ data.config.Description,
    "### END INIT INFO",
    "",
    "if [ -x /sbin/runuser ]",
    "then",
    "    SU=/sbin/runuser",
    "else",
    "    SU=/bin/su",
    "fi",
    "",
    "cmd=\"" ++ data.Path ++ String.join (data.config.Arguments.map (fun a => " " ++ cmd a)) ++ "\"",
    "",
    "name=$(basename $(readlink -f $0))",
    "user=" ++ (if data.config.UserName ≠ "" then "\"" ++ data.config.UserName ++ "\"" else ""),
    "pid_file=\"/var/run/$name.pid\"",
    "stdout_log=\"/var/log/opsramp/$name.log\"",
    "stderr_log=\"/var/log/opsramp/$name.err\"",
    "",
    "[ -e /etc/sysconfig/$name ] && . /etc/sysconfig/$name",
    "",
    "get_pid() \x7b",
    "    cat \"$pid_file\"",
    "\x7d",
    "",
    "is_running() \x7b",
    "    [ -f \"$pid_file\" ] && ps $(get_pid) > /dev/null 2>&1",
    "\x7d",
    "",
    "case \"$1\" in" ]

/-- Template lines 237-268: the `start)` branch. -/
def startLines (data : TemplateData) : List String :=
  [ "    start)",
    "        if is_running; then",
    "            echo \"Already started\"",
    "        else",
    "            echo \"Starting $name\"",
    "            " ++ (if data.config.WorkingDirectory ≠ "" then
        "cd \x27" ++ data.config.WorkingDirectory ++ "\x27" else "") ++ "                        ",
    "            $SU - $user -s /bin/bash -c \"$cmd\" >> \"$stdout_log\" 2>> \"$stderr_log\" &",
    "            #$cmd >> \"$stdout_log\" 2>> \"$stderr_log\" &\t   ",
    "            #echo $! > \"$pid_file\"",
    "            ppid=$!",
    "            cpid=\"\"",
    "            for i in $(seq 1 30)",
    "            do",
    "                cpid=$(pgrep -P \"$ppid\")",
    "                if [ \"$cpid\" != \"\" ] ; then",
    "                    break",
    "                fi",
    "                sleep 1                ",
    "            done",
    "            if [ \"$cpid\" != \"\" ] ; then",
    "                echo $cpid > \"$pid_file\"",
    "                kill -9 \"$ppid\"",
    "                wait \"$ppid\" 2>/dev/null",
    "            else",
    "               echo $ppid > \"$pid_file\"",
    "            fi",
    "            if ! is_running; then",
    "                echo \"Unable to start, see $stdout_log and $stderr_log\"",
    "                exit 1",
    "            fi",
    "        fi",
    "    ;;" ]

/-- Template lines 269-316: the `stop)`, `restart)`, `status)` and default
branches and the trailing `exit 0`. -/
def tailLines : List String :=
  [ "    stop)",
    "        if is_running; then",
    "            echo -n \"Stopping $name..\"",
    "            kill $(get_pid)",
    "            for i in $(seq 1 10)",
    "            do",
    "                if ! is_running; then",
    "                    break",
    "                fi",
    "                echo -n \".\"",
    "                sleep 1",
    "            done",
    "            echo",
    "            if is_running; then",
    "                echo \"Not stopped; may still be shutting down or shutdown may have failed\"",
    "                exit 1",
    "            else",
    "                echo \"Stopped\"",
    "                if [ -f \"$pid_file\" ]; then",
    "                    rm \"$pid_file\"",
    "                fi",
    "            fi",
    "        else",
    "            echo \"Not running\"",
    "        fi",
    "    ;;",
    "    restart)",
    "        $0 stop",
    "        if is_running; then",
    "            echo \"Unable to stop, will not attempt to start\"",
    "            exit 1",
    "        fi",
    "        $0 start",
    "    ;;",
    "    status)",
    "        if is_running; then",
    "            echo \"$name Running\"",
    "        else",
    "            echo \"$name Stopped\"",
    "            exit 1",
    "        fi",
    "    ;;",
    "    *)",
    "    echo \"Usage: $0 \x7bstart|stop|restart|status\x7d\"",
    "    exit 1",
    "    ;;",
    "esac",
    "exit 0" ]

/-- The lines of the rendered control script, in order. -/
def sysvScriptLines (cmd : String → String) (data : TemplateData) : List String :=
  headLines cmd data ++ startLines data ++ tailLines

/-- The text `s.template().Execute(f, to)` writes: the Go constant `sysvScript`
with its actions executed on `data`.  `cmd` is the template function of that name
from the package table `tf`, which is declared in another file. -/
def sysvScript (cmd : String → String) (data : TemplateData) : String :=
  String.join ((sysvScriptLines cmd data).map (fun l => l ++ "\n"))

/-! ## Operating-system interface -/

/-- The calls `Install` and `Uninstall` make, over a host state `σ`.  The two
probes read the state; every other call returns its error (`none` is Go `nil`)
and the next state.  `run` is the package helper that executes an external
command and `execPath` the method `(*Config).execPath`; both are declared in
other files of the package, so they are taken as given. -/
structure Syscalls (σ : Type) where
  Stat : String → σ → Option GoError
  Lstat : String → σ → Option GoError
  Create : String → σ → Option GoError × σ
  Write : String → String → σ → Option GoError × σ
  Chmod : String → Nat → σ → Option GoError × σ
  Symlink : String → String → σ → Option GoError × σ
  Remove : String → σ → Option GoError × σ
  run : List String → σ → Option GoError × σ
  execPath : Config → σ → Except GoError String

/-- `Install`, lines 88-103: registration of the written init script. -/
def installRegister {σ : Type} (os : Syscalls σ) (s : Config) (confPath : String) (h : σ) : σ :=
  if !IsNotExist (os.Stat "/sbin/chkconfig" h) then
    (os.run ["/sbin/chkconfig", "--add", s.Name] h).2
  else if !IsNotExist (os.Stat "/usr/sbin/update-rc.d" h) then
    (os.run ["/usr/sbin/update-rc.d", s.Name, "defaults"] h).2
  else
    let h1 := ["2", "3", "4", "5"].foldl
      (fun h i => (os.Symlink confPath ("/etc/rc" ++ i ++ ".d/S50" ++ s.Name) h).2) h
    ["0", "1", "6"].foldl
      (fun h i => (os.Symlink confPath ("/etc/rc" ++ i ++ ".d/K02" ++ s.Name) h).2) h1

/-- Go `(*sysv).Install`.  The file handle `f` is identified with the path it
was created at; the deferred `f.Close()` does not act on the host state. -/
def Install {σ : Type} (os : Syscalls σ) (cmd : String → String) (s : Config) (h : σ) :
    Option GoError × σ :=
  match configPath s with
  | Except.error err => (some err, h)
  | Except.ok confPath =>
    match os.Stat confPath h with
    | none => (some (GoError.errorString ("Init already exists: " ++ confPath)), h)
    | some _ =>
      match os.Create confPath h with
      | (some err, h1) => (some err, h1)
      | (none, h1) =>
        match os.execPath s h1 with
        | Except.error err => (some err, h1)
        | Except.ok path =>
          match os.Write confPath (sysvScript cmd ⟨s, path⟩) h1 with
          | (some err, h2) => (some err, h2)
          | (none, h2) =>
            match os.Chmod confPath 0o755 h2 with
            | (some err, h3) => (some err, h3)
            | (none, h3) => (none, installRegister os s confPath h3)

/-- `Uninstall`, lines 113-132: removal of the registration. -/
def uninstallDeregister {σ : Type} (os : Syscalls σ) (s : Config) (h : σ) : σ :=
  if !IsNotExist (os.Stat "/sbin/chkconfig" h) then
    (os.run ["/sbin/chkconfig", "--del", s.Name] h).2
  else if !IsNotExist (os.Stat "/usr/sbin/update-rc.d" h) then
    (os.run ["/usr/sbin/update-rc.d", "-f", s.Name, "remove"] h).2
  else
    let h1 := ["2", "3", "4", "5"].foldl
      (fun h i =>
        let symlinkPath := "/etc/rc" ++ i ++ ".d/S50" ++ s.Name
        match os.Lstat symlinkPath h with
        | none => (os.Remove symlinkPath h).2
        | some _ => h) h
    ["0", "1", "6"].foldl
      (fun h i =>
        let symlinkPath := "/etc/rc" ++ i ++ ".d/K02" ++ s.Name
        match os.Lstat symlinkPath h with
        | none => (os.Remove symlinkPath h).2
        | some _ => h) h1

/-- Go `(*sysv).Uninstall`. -/
def Uninstall {σ : Type} (os : Syscalls σ) (s : Config) (h : σ) : Option GoError × σ :=
  match configPath s with
  | Except.error err => (some err, h)
  | Except.ok cp =>
    match os.Remove cp (uninstallDeregister os s h) with
    | (some err, h2) => (some err, h2)
    | (none, h2) =>
      let h3 := (os.Remove ("/var/log/" ++ s.Name ++ ".log") h2).2
      let h4 := (os.Remove ("/var/log/" ++ s.Name ++ ".err") h3).2
      let h5 := (os.Remove ("/var/log/opsramp/" ++ s.Name ++ ".log") h4).2
      let h6 := (os.Remove ("/var/log/opsramp/" ++ s.Name ++ ".err") h5).2
      (none, h6)

/-! ## Recording the calls -/

/-- A call that can change the host: the arguments it was made with. -/
inductive Call
  | Create (name : String)
  | Write (name : String) (text : String)
  | Chmod (name : String) (mode : Nat)
  | Symlink (oldname : String) (newname : String)
  | Remove (name : String)
  | run (argv : List String)
deriving DecidableEq, Repr

/-- The interface `os` with a log: every call that can change the host is
appended to the log when it is made, whether it succeeds or fails. -/
def traced {σ : Type} (os : Syscalls σ) : Syscalls (σ × List Call) where
  Stat p h := os.Stat p h.1
  Lstat p h := os.Lstat p h.1
  Create p h := ((os.Create p h.1).1, (os.Create p h.1).2, h.2 ++ [Call.Create p])
  Write p t h := ((os.Write p t h.1).1, (os.Write p t h.1).2, h.2 ++ [Call.Write p t])
  Chmod p m h := ((os.Chmod p m h.1).1, (os.Chmod p m h.1).2, h.2 ++ [Call.Chmod p m])
  Symlink o n h := ((os.Symlink o n h.1).1, (os.Symlink o n h.1).2, h.2 ++ [Call.Symlink o n])
  Remove p h := ((os.Remove p h.1).1, (os.Remove p h.1).2, h.2 ++ [Call.Remove p])
  run a h := ((os.run a h.1).1, (os.run a h.1).2, h.2 ++ [Call.run a])
  execPath c h := os.execPath c h.1

/-! ## A concrete filesystem -/

/-- What a path names. -/
inductive Node
  | file (content : String) (mode : Nat)
  | dir
  | symlink (target : String)
deriving DecidableEq, Repr

/-- A filesystem: absolute paths and what each names.  The root directory is
the empty path and always exists. -/
abbrev FS := List (String × Node)

/-- The directory part of a path: everything before its last slash. -/
def parentDir (p : String) : String :=
  String.mk ((p.data.reverse.dropWhile (fun c => c != '/')).drop 1).reverse

/-- The entry at `p` replaced by `n`. -/
def FS.set (fs : FS) (p : String) (n : Node) : FS :=
  (p, n) :: fs.filter (fun e => e.1 != p)

/-- The entry at `p` removed. -/
def FS.del (fs : FS) (p : String) : FS :=
  fs.filter (fun e => e.1 != p)

/-- Why a path that names nothing cannot be reached: its directory is a
regular file (`ENOTDIR`), or the name is simply absent (`ENOENT`). -/
def FS.missing (fs : FS) (p : String) : Errno :=
  match fs.lookup (parentDir p) with
  | some (Node.file _ _) => Errno.ENOTDIR
  | _ => Errno.ENOENT

/-- Whether a new name can be made at `p`: its directory exists. -/
def FS.dirOf (fs : FS) (p : String) : Option Errno :=
  if parentDir p = "" then none
  else
    match fs.lookup (parentDir p) with
    | some Node.dir => none
    | some (Node.file _ _) => some Errno.ENOTDIR
    | _ => some Errno.ENOENT

/-- Path resolution following symbolic links, at most `fuel` of them: the
path reached and its node, or the error and the path it arose at. -/
def FS.walk (fs : FS) : Nat → String → Except (Errno × String) (String × Node)
  | 0, p => Except.error (Errno.ELOOP, p)
  | fuel + 1, p =>
    match fs.lookup p with
    | some (Node.symlink t) => FS.walk fs fuel t
    | some n => Except.ok (p, n)
    | none => Except.error (fs.missing p, p)

/-- The concrete host: a filesystem with the usual meaning of the calls.
External commands are programs that leave the filesystem as it is; `run`
fails when the program file cannot be reached.  `execPath` is the configured
executable, or a fixed path of the running binary when none is configured. -/
def linux : Syscalls FS where
  Stat p fs :=
    match fs.walk 8 p with
    | Except.ok _ => none
    | Except.error (e, _) => some (GoError.pathError "stat" p e)
  Lstat p fs :=
    match fs.lookup p with
    | some _ => none
    | none => some (GoError.pathError "lstat" p (fs.missing p))
  Create p fs :=
    match fs.walk 8 p with
    | Except.ok (q, Node.file _ m) => (none, fs.set q (Node.file "" m))
    | Except.ok _ => (some (GoError.pathError "open" p Errno.EISDIR), fs)
    | Except.error (Errno.ENOENT, q) =>
      match fs.dirOf q with
      | none => (none, fs.set q (Node.file "" 0o644))
      | some e => (some (GoError.pathError "open" p e), fs)
    | Except.error (e, _) => (some (GoError.pathError "open" p e), fs)
  Write p t fs :=
    match fs.walk 8 p with
    | Except.ok (q, Node.file _ m) => (none, fs.set q (Node.file t m))
    | _ => (some (GoError.pathError "write" p Errno.EBADF), fs)
  Chmod p m fs :=
    match fs.walk 8 p with
    | Except.ok (q, Node.file c _) => (none, fs.set q (Node.file c m))
    | Except.ok _ => (none, fs)
    | Except.error (e, _) => (some (GoError.pathError "chmod" p e), fs)
  Symlink o n fs :=
    match fs.lookup n with
    | some _ => (some (GoError.pathError "symlink" n Errno.EEXIST), fs)
    | none =>
      match fs.dirOf n with
      | none => (none, fs.set n (Node.symlink o))
      | some e => (some (GoError.pathError "symlink" n e), fs)
  Remove p fs :=
    match fs.lookup p with
    | some Node.dir =>
      if fs.any (fun e => parentDir e.1 == p) then
        (some (GoError.pathError "remove" p Errno.ENOTEMPTY), fs)
      else (none, fs.del p)
    | some _ => (none, fs.del p)
    | none => (some (GoError.pathError "remove" p (fs.missing p)), fs)
  run argv fs :=
    match fs.walk 8 (argv.headD "") with
    | Except.ok (_, Node.file _ _) => (none, fs)
    | _ => (some (GoError.errorString (argv.headD "" ++ " failed")), fs)
  execPath c _ :=
    if c.Executable ≠ "" then Except.ok c.Executable else Except.ok "/proc/self/exe"

/-- A service configuration used in the closed examples. -/
def demoConfig : Config where
  Name := "svc"
  DisplayName := "Svc"
  Description := "demo service"
  UserName := ""
  Arguments := ["--port", "80"]
  Executable := "/opt/svc/bin/svc"
  WorkingDirectory := ""
  UserService := false

/-- The same configuration with the user-service option set. -/
def demoUserConfig : Config :=
  { demoConfig with UserService := true }

/-- A host with the init directory and the seven runlevel directories except
`/etc/rc4.d`, and with neither registration tool. -/
def bareHost : FS :=
  [ ("/etc", Node.dir), ("/etc/init.d", Node.dir),
    ("/etc/rc0.d", Node.dir), ("/etc/rc1.d", Node.dir), ("/etc/rc2.d", Node.dir),
    ("/etc/rc3.d", Node.dir), ("/etc/rc5.d", Node.dir), ("/etc/rc6.d", Node.dir),
    ("/sbin", Node.dir), ("/usr", Node.dir), ("/usr/sbin", Node.dir),
    ("/var", Node.dir), ("/var/log", Node.dir) ]

/-- A host on which the service is installed: the init script is in place. -/
def installedHost : FS :=
  ("/etc/init.d/svc", Node.file "#!/bin/sh\n" 0o755) ::
  ("/etc/rc2.d/S50svc", Node.symlink "/etc/init.d/svc") ::
  ("/var/log/svc.log", Node.file "started\n" 0o644) :: bareHost

/-- A host where `/sbin` is a regular file, so that no path below it exists,
and where `update-rc.d` is installed. -/
def oddHost : FS :=
  [ ("/etc", Node.dir), ("/etc/init.d", Node.dir),
    ("/sbin", Node.file "" 0o644),
    ("/usr", Node.dir), ("/usr/sbin", Node.dir),
    ("/usr/sbin/update-rc.d", Node.file "#!/usr/bin/perl\n" 0o755) ]

/-- The template function `cmd` used in the closed examples: the argument
between double quotes. -/
def demoCmd (a : String) : String := "\"" ++ a ++ "\""

/-! ## The control script as a state machine

The branches of `case "$1" in` are embedded over what the script reads and
changes: the regular file at `$pid_file`, the process table, and its standard
output.  The process table is abstract: `Procs P` gives what each command the
script runs observes of it and does to it, and the theorems hold for every
such table.  The script is the only writer of the pid file, and its writes
and its `rm` succeed.

Lines 211-226 of the script only set variables (`SU`, `cmd`, `name`, `user`,
`pid_file`, the two log paths) and source `/etc/sysconfig/$name`, which may set
them again: the pid file of the model is the file `$pid_file` then names, and
`Vars` holds the values that are printed. -/

/-- The state the script acts on.  `pid_file` is `none` when `[ -f "$pid_file" ]`
fails and otherwise the words of the file, which is what the unquoted
`$(get_pid)` expands to. -/
structure World (P : Type) where
  pid_file : Option (List String)
  procs : P
  stdout : List String

/-- The commands of the script that touch the process table.
`ps words` is whether `ps $(get_pid)` exits 0; `pgrep ppid` is the words that
`pgrep -P "$ppid"` prints; `launch` is lines 242-246, the optional `cd` and the
background launch through `$SU`, returning `$!`; `kill`, `kill9` and `wait` are
`kill <words>`, `kill -9 <pid>` and `wait <pid>`; `sleep` is `sleep 1`, during
which the table changes by itself. -/
structure Procs (P : Type) where
  ps : List String → P → Bool
  pgrep : String → P → List String
  launch : P → String × P
  kill : List String → P → P
  kill9 : String → P → P
  wait : String → P → P
  sleep : P → P

/-- The shell variables that appear in the messages. -/
structure Vars where
  arg0 : String
  name : String
  stdout_log : String
  stderr_log : String

/-- Shell `echo text`. -/
def echo {P : Type} (text : String) (w : World P) : World P :=
  { w with stdout := w.stdout ++ [text ++ "\n"] }

/-- Shell `echo -n text`. -/
def echo_n {P : Type} (text : String) (w : World P) : World P :=
  { w with stdout := w.stdout ++ [text] }

/-- Script function `get_pid`: `cat "$pid_file"`. -/
def get_pid {P : Type} (w : World P) : List String :=
  match w.pid_file with
  | some words => words
  | none => []

/-- Script function `is_running`:
`[ -f "$pid_file" ] && ps $(get_pid) > /dev/null 2>&1`. -/
def is_running {P : Type} (E : Procs P) (w : World P) : Bool :=
  match w.pid_file with
  | none => false
  | some _ => E.ps (get_pid w) w.procs

/-- The loop of lines 248-255 with `n` iterations left: the last value of
`cpid` and the process table when the loop ends. -/
def pollChild {P : Type} (E : Procs P) (ppid : String) : Nat → P → List String × P
  | 0, p => ([], p)
  | n + 1, p =>
    let cpid := E.pgrep ppid p
    if cpid ≠ [] then (cpid, p) else pollChild E ppid n (E.sleep p)

/-- The `start)` branch, lines 237-268.  The first component is the status of
an `exit` the branch executed, `none` when it falls out of the `case`. -/
def start {P : Type} (E : Procs P) (v : Vars) (w : World P) : Option Nat × World P :=
  if is_running E w then
    (none, echo "Already started" w)
  else
    let w1 := echo ("Starting " ++ v.name) w
    let launched := E.launch w1.procs
    let ppid := launched.1
    let polled := pollChild E ppid 30 launched.2
    let cpid := polled.1
    let w2 : World P :=
      if cpid ≠ [] then
        { w1 with pid_file := some cpid, procs := E.wait ppid (E.kill9 ppid polled.2) }
      else
        { w1 with pid_file := some [ppid], procs := polled.2 }
    if !is_running E w2 then
      (some 1, echo ("Unable to start, see " ++ v.stdout_log ++ " and " ++ v.stderr_log) w2)
    else
      (none, w2)

/-- The loop of lines 273-280 with `n` iterations left. -/
def pollStopped {P : Type} (E : Procs P) : Nat → World P → World P
  | 0, w => w
  | n + 1, w =>
    if !is_running E w then w
    else
      let w1 := echo_n "." w
      pollStopped E n { w1 with procs := E.sleep w1.procs }

/-- The `stop)` branch, lines 269-294. -/
def stop {P : Type} (E : Procs P) (v : Vars) (w : World P) : Option Nat × World P :=
  if is_running E w then
    let w1 := echo_n ("Stopping " ++ v.name ++ "..") w
    let w2 := { w1 with procs := E.kill (get_pid w1) w1.procs }
    let w3 := pollStopped E 10 w2
    let w4 := echo "" w3
    if is_running E w4 then
      (some 1, echo "Not stopped; may still be shutting down or shutdown may have failed" w4)
    else
      let w5 := echo "Stopped" w4
      (none, if w5.pid_file.isSome then { w5 with pid_file := none } else w5)
  else
    (none, echo "Not running" w)

/-- The end of the script for a branch result: the status of the `exit` the
branch executed, or the trailing `exit 0` of line 316. -/
def exitStatus {P : Type} (r : Option Nat × World P) : Nat × World P :=
  match r.1 with
  | some code => (code, r.2)
  | none => (0, r.2)

/-- The `restart)` branch, lines 295-302.  `$0 stop` and `$0 start` run the
script again with that argument, that is the branch followed by the end of the
script; the status they return is not read. -/
def restart {P : Type} (E : Procs P) (v : Vars) (w : World P) : Option Nat × World P :=
  let w1 := (exitStatus (stop E v w)).2
  if is_running E w1 then
    (some 1, echo "Unable to stop, will not attempt to start" w1)
  else
    let w2 := (exitStatus (start E v w1)).2
    (none, w2)

/-- The `status)` branch, lines 303-310. -/
def status {P : Type} (E : Procs P) (v : Vars) (w : World P) : Option Nat × World P :=
  if is_running E w then
    (none, echo (v.name ++ " Running") w)
  else
    (some 1, echo (v.name ++ " Stopped") w)

/-- The script invoked with first argument `arg`, lines 236-316: its exit
status and the state it leaves. -/
def script {P : Type} (E : Procs P) (v : Vars) (arg : String) (w : World P) : Nat × World P :=
  if arg = "start" then exitStatus (start E v w)
  else if arg = "stop" then exitStatus (stop E v w)
  else if arg = "restart" then exitStatus (restart E v w)
  else if arg = "status" then exitStatus (status E v w)
  else (1, echo ("Usage: " ++ v.arg0 ++ " \x7bstart|stop|restart|status\x7d") w)

/-! ## A concrete process table -/

/-- A live process. `stubborn` processes ignore the termination signal. -/
structure Proc where
  pid : String
  parent : String
  stubborn : Bool
deriving DecidableEq, Repr

/-- What the launch line does in a scenario: the pid of the launcher, whether
the launcher stays alive, and the worker it forks (after how many seconds, and
the worker itself), if any. -/
structure Scenario where
  launcher : String
  launcherLives : Bool
  worker : Option (Nat × Proc)

/-- A process table: the live processes, whether the launch line has run, and
the seconds slept since. -/
structure Table where
  live : List Proc
  launched : Bool
  clock : Nat
deriving DecidableEq, Repr

/-- The processes a scenario adds when the clock reaches `t`. -/
def Scenario.born (sc : Scenario) (t : Nat) : List Proc :=
  match sc.worker with
  | some (delay, p) => if delay = t then [p] else []
  | none => []

/-- The process table of a scenario.  `ps` without a pid lists the caller's
own processes and succeeds; with pids it succeeds when one of them is live. -/
def demoProcs (sc : Scenario) : Procs Table where
  ps words t := words.isEmpty || words.any (fun w => t.live.any (fun p => p.pid == w))
  pgrep ppid t := (t.live.filter (fun p => p.parent == ppid)).map (fun p => p.pid)
  launch t :=
    (sc.launcher,
      { live := (if sc.launcherLives then [⟨sc.launcher, "1", false⟩] else []) ++ sc.born 0 ++ t.live,
        launched := true, clock := 0 })
  kill words t := { t with live := t.live.filter (fun p => p.stubborn || !words.contains p.pid) }
  kill9 pid t := { t with live := t.live.filter (fun p => p.pid != pid) }
  wait _ t := t
  sleep t :=
    { t with
      clock := t.clock + 1,
      live := (if t.launched then sc.born (t.clock + 1) else []) ++ t.live }

/-- The variables of the script installed as `svc`. -/
def demoVars : Vars where
  arg0 := "/etc/init.d/svc"
  name := "svc"
  stdout_log := "/var/log/opsramp/svc.log"
  stderr_log := "/var/log/opsramp/svc.err"

/-- A launcher (pid 100) that forks the worker (pid 101) after two seconds. -/
def wrapperScenario : Scenario :=
  { launcher := "100", launcherLives := true, worker := some (2, ⟨"101", "100", false⟩) }

/-- A launcher (pid 100) that is itself the worker: it never forks. -/
def directScenario : Scenario :=
  { launcher := "100", launcherLives := true, worker := none }

/-- A launch that fails at once: the launcher (pid 100) is gone before the
first poll and nothing else is started. -/
def failingScenario : Scenario :=
  { launcher := "100", launcherLives := false, worker := none }

/-- A state with no pid file and no process. -/
def stoppedWorld : World Table :=
  { pid_file := none, procs := { live := [], launched := false, clock := 0 }, stdout := [] }

/-- A state whose pid file names the live process 42. -/
def runningWorld : World Table :=
  { pid_file := some ["42"],
    procs := { live := [⟨"42", "1", false⟩], launched := false, clock := 0 }, stdout := [] }

/-- A state whose pid file names the live process 42, which ignores the
termination signal. -/
def stubbornWorld : World Table :=
  { pid_file := some ["42"],
    procs := { live := [⟨"42", "1", true⟩], launched := false, clock := 0 }, stdout := [] }

/-- A state with a stale pid file: it names process 42, which is not live. -/
def staleWorld : World Table :=
  { pid_file := some ["42"], procs := { live := [], launched := false, clock := 0 }, stdout := [] }

/-! ## Reading a line of the script -/

/-- The command word of a script line: its first blank-separated word. -/
def commandWord (line : String) : String :=
  String.mk ((line.data.dropWhile (fun c => c == ' ' || c == '\t')).takeWhile
    (fun c => !(c == ' ' || c == '\t')))

/-- The launch line of the start branch, line 243. -/
def launchLine : String :=
  "            $SU - $user -s /bin/bash -c \"$cmd\" >> \"$stdout_log\" 2>> \"$stderr_log\" &"

/-! ### Shell words

A reader of one line of shell text, enough for the lines the template fills
in: blank-separated words, single and double quotes and `$name` parameters. -/

/-- A piece of a shell word: literal characters, quoted or not, or a parameter
`$name`, inside double quotes or not. -/
inductive Piece
  | text (s : String)
  | param (name : String) (quoted : Bool)
deriving DecidableEq, Repr

/-- Where the reader of a line is: outside quotes, inside single or double
quotes, inside the name of a parameter, stopped at an operator, or failed on
text it does not read. -/
inductive Mode
  | plain
  | single
  | double
  | param (quoted : Bool)
  | stop
  | fail
deriving DecidableEq, Repr

/-- The state of the reader: the literal characters and the parameter name
being read, the pieces of the current word, whether a word has begun, and the
words read so far. -/
structure Lexer where
  mode : Mode
  run : List Char
  name : List Char
  word : List Piece
  inWord : Bool
  words : List (List Piece)
deriving DecidableEq, Repr

/-- The reader at the start of a line. -/
def Lexer.start : Lexer :=
  { mode := Mode.plain, run := [], name := [], word := [], inWord := false, words := [] }

/-- The pieces of the current word, with the literal characters read last. -/
def Lexer.flush (x : Lexer) : List Piece :=
  if x.run = [] then x.word else x.word ++ [Piece.text (String.mk x.run)]

/-- The current word, if one has begun, added to the words read. -/
def Lexer.endWord (x : Lexer) : Lexer :=
  if x.inWord then
    { x with words := x.words ++ [x.flush], run := [], word := [], inWord := false }
  else x

/-- A character of a parameter name. -/
def isNameChar (c : Char) : Bool :=
  c.isAlphanum || c == '_'

/-- One character inside single quotes: every character is literal up to the
closing quote. -/
def stepSingle (x : Lexer) (c : Char) : Lexer :=
  if c == '\x27' then { x with mode := Mode.plain }
  else { x with run := x.run ++ [c] }

/-- One character inside double quotes: `$` starts a parameter, a backslash or
a backquote is not read, every other character is literal up to the closing
quote. -/
def stepDouble (x : Lexer) (c : Char) : Lexer :=
  if c == '"' then { x with mode := Mode.plain }
  else if c == '$' then
    { x with mode := Mode.param true, word := x.flush, run := [], name := [] }
  else if c == '\\' || c == '\x60' then { x with mode := Mode.fail }
  else { x with run := x.run ++ [c] }

/-- One character outside quotes: blanks separate words, quotes open, `$`
starts a parameter, a redirection or control operator ends the command, and
escapes, substitutions, comments and pattern characters are not read. -/
def stepPlain (x : Lexer) (c : Char) : Lexer :=
  if c == ' ' || c == '\t' then x.endWord
  else if c == '\x27' then { x with mode := Mode.single, inWord := true }
  else if c == '"' then { x with mode := Mode.double, inWord := true }
  else if c == '$' then
    { x with mode := Mode.param false, word := x.flush, run := [], name := [], inWord := true }
  else if c == '>' || c == '<' || c == '&' || c == ';' || c == '|' then
    { x with mode := if x.inWord then Mode.fail else Mode.stop }
  else if c == '\\' || c == '\x60' || c == '(' || c == ')' || c == '#' || c == '~'
      || c == '*' || c == '?' || c == '[' || c == '\n' then
    { x with mode := Mode.fail }
  else { x with run := x.run ++ [c], inWord := true }

/-- One character, by the mode of the reader.  A parameter name ends at the
first character that cannot be part of it; special parameters are not read. -/
def step (x : Lexer) (c : Char) : Lexer :=
  match x.mode with
  | Mode.plain => stepPlain x c
  | Mode.single => stepSingle x c
  | Mode.double => stepDouble x c
  | Mode.param q =>
    if isNameChar c then { x with name := x.name ++ [c] }
    else if x.name = [] then { x with mode := Mode.fail }
    else
      let y := { x with word := x.word ++ [Piece.param (String.mk x.name) q], name := [],
                        mode := if q then Mode.double else Mode.plain }
      if q then stepDouble y c else stepPlain y c
  | Mode.stop => x
  | Mode.fail => x

/-- The words at the end of the line; `none` when a quote is still open or the
line has text the reader does not read. -/
def Lexer.finish (x : Lexer) : Option (List (List Piece)) :=
  match x.mode with
  | Mode.plain => some x.endWord.words
  | Mode.param false =>
    if x.name = [] then none
    else some (x.words ++ [x.word ++ [Piece.param (String.mk x.name) false]])
  | Mode.stop => some x.words
  | _ => none

/-- The words of the simple command on one line of shell text, up to its first
redirection or control operator. -/
def shWords (line : String) : Option (List (List Piece)) :=
  (line.data.foldl step Lexer.start).finish

/-- The field separators: blank, tab and newline. -/
def isIFS (c : Char) : Bool := c == ' ' || c == '\t' || c == '\n'

/-- Field splitting of the value of an unquoted parameter: `cur` is the field
being read. -/
def splitFields : List Char → List Char → List String
  | cur, [] => if cur = [] then [] else [String.mk cur]
  | cur, c :: cs =>
    if isIFS c then
      (if cur = [] then splitFields [] cs else String.mk cur :: splitFields [] cs)
    else splitFields (cur ++ [c]) cs

/-- Whether a value has a pattern character, which makes an unquoted expansion
of it depend on the files present. -/
def hasGlob (v : String) : Bool :=
  v.data.any (fun c => c == '*' || c == '?' || c == '[')

/-- The arguments one word expands to, given the values of the parameters: a
quoted parameter is one argument, an unquoted one is split into fields.  Words
that mix pieces are not expanded. -/
def expandWord (env : String → String) : List Piece → Option (List String)
  | [] => some [""]
  | [Piece.text s] => some [s]
  | [Piece.param n true] => some [env n]
  | [Piece.param n false] => if hasGlob (env n) then none else some (splitFields [] (env n).data)
  | _ => none

/-- The arguments a list of words expands to. -/
def expandWords (env : String → String) : List (List Piece) → Option (List String)
  | [] => some []
  | w :: ws =>
    match expandWord env w, expandWords env ws with
    | some a, some b => some (a ++ b)
    | _, _ => none

/-- The argument vector of the simple command on a line. -/
def shArgv (env : String → String) (line : String) : Option (List String) :=
  match shWords line with
  | none => none
  | some ws => expandWords env ws

/-- The assignment a line consists of: the name before the first `=` of its only
word and the value after it. -/
def shAssignment (line : String) : Option (String × String) :=
  match shWords line with
  | some [[Piece.text t]] =>
    if t.data.contains '=' then
      some (String.mk (t.data.takeWhile (fun c => c != '=')),
            String.mk ((t.data.dropWhile (fun c => c != '=')).drop 1))
    else none
  | some [[]] => none
  | _ => none

/-- The parameter values of the closed examples: `SU` is `/bin/su`, `user` is
as given. -/
def demoEnv (user : String) (n : String) : String :=
  if n = "SU" then "/bin/su" else if n = "user" then user
  else if n = "cmd" then "/opt/svc/bin/svc \"--port\" \"80\"" else ""

/-- A text without a single quote. -/
def quoteFree (s : String) : Bool :=
  s.data.all (fun c => c != '\x27')

/-- A text without a character that is special to the shell inside double
quotes or in an unquoted expansion: double quote, `$`, backslash, backquote,
blank, tab, newline, `*`, `?`, `[`. -/
def shellPlain (s : String) : Bool :=
  s.data.all (fun c => !(c == '"' || c == '$' || c == '\\' || c == '\x60' || isIFS c
    || c == '*' || c == '?' || c == '['))

/-! ## Words of the specification -/

/-- The seven runlevel links the specification names for a service: start
links `S50<name>` in runlevels 2, 3, 4, 5 and kill links `K02<name>` in
runlevels 0, 1, 6. -/
def specRunlevelLinks (name : String) : List String :=
  [ "/etc/rc2.d/S50" ++ name, "/etc/rc3.d/S50" ++ name,
    "/etc/rc4.d/S50" ++ name, "/etc/rc5.d/S50" ++ name,
    "/etc/rc0.d/K02" ++ name, "/etc/rc1.d/K02" ++ name, "/etc/rc6.d/K02" ++ name ]

/-- The registration mechanisms. -/
inductive Toolset
  | chkconfig
  | updateRcD
  | links
deriving DecidableEq, Repr

/-- The mechanism the two probes select on a host: chkconfig unless its probe
reports "not exist", else update-rc.d unless its probe reports "not exist",
else the runlevel links. -/
def toolset {σ : Type} (os : Syscalls σ) (h : σ) : Toolset :=
  if IsNotExist (os.Stat "/sbin/chkconfig" h) = false then Toolset.chkconfig
  else if IsNotExist (os.Stat "/usr/sbin/update-rc.d" h) = false then Toolset.updateRcD
  else Toolset.links

/-- One link of the removal pass: it is removed when `os.Lstat` finds it. -/
def removeIfFound {σ : Type} (os : Syscalls σ) (h : σ) (l : String) : σ :=
  match os.Lstat l h with
  | none => (os.Remove l h).2
  | some _ => h

/-- The host after the deregistration the specification describes: the
deregistration command of the detected tool, or one pass over the seven
runlevel links that removes those found. -/
def specDeregistered {σ : Type} (os : Syscalls σ) (name : String) (h : σ) : σ :=
  match toolset os h with
  | Toolset.chkconfig => (os.run ["/sbin/chkconfig", "--del", name] h).2
  | Toolset.updateRcD => (os.run ["/usr/sbin/update-rc.d", "-f", name, "remove"] h).2
  | Toolset.links => (specRunlevelLinks name).foldl (removeIfFound os) h

/-- A host on which the service is not installed but an old log file of it
is left. -/
def orphanHost : FS :=
  ("/var/log/svc.log", Node.file "started\n" 0o644) :: bareHost

/-! ## Installer: theorems -/

theorem configPath_ok (s : Config) (hu : s.UserService = false) :
    configPath s = Except.ok ("/etc/init.d/" ++ s.Name) := by
  simp [configPath, hu]

theorem rcS50 (i name : String) (a b : String) (hab : "/etc/rc" ++ i ++ ".d/S50" = b)
    (ha : a = b ++ name) : "/etc/rc" ++ i ++ ".d/S50" ++ name = a := by
  rw [ha, ← hab]

theorem rcK02 (i name : String) (a b : String) (hab : "/etc/rc" ++ i ++ ".d/K02" = b)
    (ha : a = b ++ name) : "/etc/rc" ++ i ++ ".d/K02" ++ name = a := by
  rw [ha, ← hab]

theorem rcPaths (name : String) :
    "/etc/rc" ++ "2" ++ ".d/S50" ++ name = "/etc/rc2.d/S50" ++ name ∧
    "/etc/rc" ++ "3" ++ ".d/S50" ++ name = "/etc/rc3.d/S50" ++ name ∧
    "/etc/rc" ++ "4" ++ ".d/S50" ++ name = "/etc/rc4.d/S50" ++ name ∧
    "/etc/rc" ++ "5" ++ ".d/S50" ++ name = "/etc/rc5.d/S50" ++ name ∧
    "/etc/rc" ++ "0" ++ ".d/K02" ++ name = "/etc/rc0.d/K02" ++ name ∧
    "/etc/rc" ++ "1" ++ ".d/K02" ++ name = "/etc/rc1.d/K02" ++ name ∧
    "/etc/rc" ++ "6" ++ ".d/K02" ++ name = "/etc/rc6.d/K02" ++ name :=
  ⟨rcS50 _ _ _ _ (by decide) rfl, rcS50 _ _ _ _ (by decide) rfl,
   rcS50 _ _ _ _ (by decide) rfl, rcS50 _ _ _ _ (by decide) rfl,
   rcK02 _ _ _ _ (by decide) rfl, rcK02 _ _ _ _ (by decide) rfl,
   rcK02 _ _ _ _ (by decide) rfl⟩

/-- The registration phase of `Install` on a recording host: the calls it
appends, by the mechanism the probes select. -/
theorem installRegister_traced {σ : Type} (os : Syscalls σ) (s : Config) (cp : String)
    (h : σ) (t : List Call) :
    (installRegister (traced os) s cp (h, t)).2 = t ++
      (match toolset os h with
       | Toolset.chkconfig => [Call.run ["/sbin/chkconfig", "--add", s.Name]]
       | Toolset.updateRcD => [Call.run ["/usr/sbin/update-rc.d", s.Name, "defaults"]]
       | Toolset.links => (specRunlevelLinks s.Name).map (Call.Symlink cp)) := by
  obtain ⟨p2, p3, p4, p5, p0, p1, p6⟩ := rcPaths s.Name
  unfold installRegister toolset
  by_cases hc : IsNotExist (os.Stat "/sbin/chkconfig" h) = false
  · simp [traced, hc]
  · by_cases hd : IsNotExist (os.Stat "/usr/sbin/update-rc.d" h) = false
    · simp [traced, hc, hd]
    · simp [traced, hc, hd, specRunlevelLinks, p2, p3, p4, p5, p0, p1, p6]

/-- C1: for every configuration whose user-service option is set, `Install`
and `Uninstall` both return `errNoUserServiceSystemV` and leave the host as it
was; on a recording host nothing is recorded: no call that changes the
filesystem and no external command. -/
theorem userService_refused {σ : Type} (os : Syscalls σ) (cmd : String → String)
    (s : Config) (h : σ) (hu : s.UserService = true) :
    errNoUserServiceSystemV = GoError.errorString "User services are not supported on SystemV." ∧
    Install os cmd s h = (some errNoUserServiceSystemV, h) ∧
    Uninstall os s h = (some errNoUserServiceSystemV, h) ∧
    (Install (traced os) cmd s (h, [])).2.2 = [] ∧
    (Uninstall (traced os) s (h, [])).2.2 = [] := by
  simp [Install, Uninstall, configPath, hu, errNoUserServiceSystemV]

theorem userService_refused_witness :
    demoUserConfig.UserService = true ∧
    Install linux demoCmd demoUserConfig installedHost
      = (some errNoUserServiceSystemV, installedHost) ∧
    Uninstall linux demoUserConfig installedHost
      = (some errNoUserServiceSystemV, installedHost) :=
  ⟨rfl, (userService_refused linux demoCmd demoUserConfig installedHost rfl).2.1,
    (userService_refused linux demoCmd demoUserConfig installedHost rfl).2.2.1⟩

/-- C2: when the probe `os.Stat` finds `/etc/init.d/<name>` (for a configuration
that is not a user service, which `Install` refuses earlier), `Install` returns
the error "Init already exists: /etc/init.d/<name>" and the host is unchanged;
on a recording host nothing is recorded: nothing is created, written, chmod-ed
or symlinked and no command is run. -/
theorem install_existing_refused {σ : Type} (os : Syscalls σ) (cmd : String → String)
    (s : Config) (h : σ) (hu : s.UserService = false)
    (hex : os.Stat ("/etc/init.d/" ++ s.Name) h = none) :
    Install os cmd s h
      = (some (GoError.errorString ("Init already exists: " ++ ("/etc/init.d/" ++ s.Name))), h) ∧
    (Install (traced os) cmd s (h, [])).2.2 = [] := by
  simp [Install, configPath, hu, hex, traced]

theorem install_existing_refused_witness :
    (Install linux demoCmd demoConfig bareHost).1 = none ∧
    linux.Stat "/etc/init.d/svc" (Install linux demoCmd demoConfig bareHost).2 = none ∧
    Install linux demoCmd demoConfig (Install linux demoCmd demoConfig bareHost).2
      = (some (GoError.errorString "Init already exists: /etc/init.d/svc"),
          (Install linux demoCmd demoConfig bareHost).2) ∧
    (Install (traced linux) demoCmd demoConfig
      ((Install linux demoCmd demoConfig bareHost).2, [])).2.2 = [] :=
  ⟨by decide, by decide,
    install_existing_refused linux demoCmd demoConfig
      (Install linux demoCmd demoConfig bareHost).2 rfl (by decide)⟩

/-- C3, as the code has it: when `Install` gets past writing and chmod-ing the
script it returns `nil` and makes one registration attempt, selected by the two
probes alone: the chkconfig command unless the probe of `/sbin/chkconfig`
reports "not exist" (so also when the probe fails in another way), otherwise
the update-rc.d command unless the probe of `/usr/sbin/update-rc.d` reports
"not exist", otherwise the seven symlinks, all of them attempted in order
whatever each attempt returns.  The result of the command is not read. -/
theorem install_registration {σ : Type} (os : Syscalls σ) (cmd : String → String)
    (s : Config) (h h1 h2 h3 : σ) (path : String) (e : GoError)
    (hu : s.UserService = false)
    (hstat : os.Stat ("/etc/init.d/" ++ s.Name) h = some e)
    (hcreate : os.Create ("/etc/init.d/" ++ s.Name) h = (none, h1))
    (hexec : os.execPath s h1 = Except.ok path)
    (hwrite : os.Write ("/etc/init.d/" ++ s.Name) (sysvScript cmd ⟨s, path⟩) h1 = (none, h2))
    (hchmod : os.Chmod ("/etc/init.d/" ++ s.Name) 0o755 h2 = (none, h3)) :
    (Install (traced os) cmd s (h, [])).1 = none ∧
    (Install (traced os) cmd s (h, [])).2.2 =
      [ Call.Create ("/etc/init.d/" ++ s.Name),
        Call.Write ("/etc/init.d/" ++ s.Name) (sysvScript cmd ⟨s, path⟩),
        Call.Chmod ("/etc/init.d/" ++ s.Name) 0o755 ] ++
      (if IsNotExist (os.Stat "/sbin/chkconfig" h3) = false then
        [Call.run ["/sbin/chkconfig", "--add", s.Name]]
      else if IsNotExist (os.Stat "/usr/sbin/update-rc.d" h3) = false then
        [Call.run ["/usr/sbin/update-rc.d", s.Name, "defaults"]]
      else
        (specRunlevelLinks s.Name).map (Call.Symlink ("/etc/init.d/" ++ s.Name))) := by
  have hI : Install (traced os) cmd s (h, []) =
      (none, installRegister (traced os) s ("/etc/init.d/" ++ s.Name)
        (h3, [ Call.Create ("/etc/init.d/" ++ s.Name),
               Call.Write ("/etc/init.d/" ++ s.Name) (sysvScript cmd ⟨s, path⟩),
               Call.Chmod ("/etc/init.d/" ++ s.Name) 0o755 ])) := by
    simp [Install, configPath, hu, traced, hstat, hcreate, hexec, hwrite, hchmod]
  rw [hI]
  refine ⟨rfl, ?_⟩
  have hr := installRegister_traced os s ("/etc/init.d/" ++ s.Name) h3
    [ Call.Create ("/etc/init.d/" ++ s.Name),
      Call.Write ("/etc/init.d/" ++ s.Name) (sysvScript cmd ⟨s, path⟩),
      Call.Chmod ("/etc/init.d/" ++ s.Name) 0o755 ]
  simp only [] at hr ⊢
  rw [hr]
  unfold toolset
  by_cases hc : IsNotExist (os.Stat "/sbin/chkconfig" h3) = false
  · simp [hc]
  · by_cases hd : IsNotExist (os.Stat "/usr/sbin/update-rc.d" h3) = false
    · simp [hc, hd]
    · simp [hc, hd]

theorem install_registration_witness :
    (Install (traced linux) demoCmd demoConfig (bareHost, [])).1 = none ∧
    (Install (traced linux) demoCmd demoConfig (bareHost, [])).2.2 =
      [ Call.Create "/etc/init.d/svc",
        Call.Write "/etc/init.d/svc" (sysvScript demoCmd ⟨demoConfig, "/opt/svc/bin/svc"⟩),
        Call.Chmod "/etc/init.d/svc" 0o755,
        Call.Symlink "/etc/init.d/svc" "/etc/rc2.d/S50svc",
        Call.Symlink "/etc/init.d/svc" "/etc/rc3.d/S50svc",
        Call.Symlink "/etc/init.d/svc" "/etc/rc4.d/S50svc",
        Call.Symlink "/etc/init.d/svc" "/etc/rc5.d/S50svc",
        Call.Symlink "/etc/init.d/svc" "/etc/rc0.d/K02svc",
        Call.Symlink "/etc/init.d/svc" "/etc/rc1.d/K02svc",
        Call.Symlink "/etc/init.d/svc" "/etc/rc6.d/K02svc" ] ∧
    (linux.Symlink "/etc/init.d/svc" "/etc/rc4.d/S50svc" bareHost).1
      = some (GoError.pathError "symlink" "/etc/rc4.d/S50svc" Errno.ENOENT) :=
  ⟨(install_registration linux demoCmd demoConfig bareHost
      (linux.Create "/etc/init.d/svc" bareHost).2
      (linux.Write "/etc/init.d/svc" (sysvScript demoCmd ⟨demoConfig, "/opt/svc/bin/svc"⟩)
        (linux.Create "/etc/init.d/svc" bareHost).2).2
      (linux.Chmod "/etc/init.d/svc" 0o755
        (linux.Write "/etc/init.d/svc" (sysvScript demoCmd ⟨demoConfig, "/opt/svc/bin/svc"⟩)
          (linux.Create "/etc/init.d/svc" bareHost).2).2).2
      "/opt/svc/bin/svc" (GoError.pathError "stat" "/etc/init.d/svc" Errno.ENOENT)
      rfl rfl rfl rfl rfl rfl).1,
    rfl, rfl⟩

/-- C3 as stated fails: on a host where `/sbin` is a regular file there is no
`/sbin/chkconfig` (the probe fails with `ENOTDIR`, and `Lstat` fails too) and
`/usr/sbin/update-rc.d` exists, yet `Install` runs the chkconfig command and
not the update-rc.d one. -/
theorem chkconfig_run_though_absent :
    oddHost.lookup "/sbin/chkconfig" = none ∧
    linux.Stat "/sbin/chkconfig" oddHost
      = some (GoError.pathError "stat" "/sbin/chkconfig" Errno.ENOTDIR) ∧
    linux.Lstat "/sbin/chkconfig" oddHost ≠ none ∧
    linux.Stat "/usr/sbin/update-rc.d" oddHost = none ∧
    (Install (traced linux) demoCmd demoConfig (oddHost, [])).1 = none ∧
    (Install (traced linux) demoCmd demoConfig (oddHost, [])).2.2 =
      [ Call.Create "/etc/init.d/svc",
        Call.Write "/etc/init.d/svc" (sysvScript demoCmd ⟨demoConfig, "/opt/svc/bin/svc"⟩),
        Call.Chmod "/etc/init.d/svc" 0o755,
        Call.run ["/sbin/chkconfig", "--add", "svc"] ] :=
  ⟨rfl, rfl, by decide, rfl, rfl, rfl⟩

theorem toolset_traced {σ : Type} (os : Syscalls σ) (h : σ) (t : List Call) :
    toolset (traced os) (h, t) = toolset os h := by
  simp [toolset, traced]

theorem removeIfFound_traced {σ : Type} (os : Syscalls σ) (h : σ) (t : List Call)
    (l : String) :
    removeIfFound (traced os) (h, t) l =
      (removeIfFound os h l,
        t ++ (match os.Lstat l h with
              | none => [Call.Remove l]
              | some _ => [])) := by
  unfold removeIfFound
  cases hl : os.Lstat l h <;> simp [traced, hl]

/-- The removal pass on a recording host: the host it leaves is the one the
plain pass leaves, and what it records does not depend on what was recorded
before. -/
theorem removePass_traced {σ : Type} (os : Syscalls σ) (ls : List String) :
    ∀ (h : σ) (t : List Call),
      ls.foldl (removeIfFound (traced os)) (h, t) =
        (ls.foldl (removeIfFound os) h,
          t ++ (ls.foldl (removeIfFound (traced os)) (h, [])).2) := by
  induction ls with
  | nil => intro h t; simp
  | cons l ls ih =>
    intro h t
    simp only [List.foldl_cons]
    rw [removeIfFound_traced os h t l, removeIfFound_traced os h [] l]
    rw [ih (removeIfFound os h l) _]
    rw [ih (removeIfFound os h l) ([] ++ _)]
    simp [List.append_assoc]

/-- The removal pass records removals of some of the links it is given, in
order, and of nothing else. -/
theorem removePass_sublist {σ : Type} (os : Syscalls σ) (ls : List String) :
    ∀ (h : σ), ((ls.foldl (removeIfFound (traced os)) (h, [])).2).Sublist
      (ls.map Call.Remove) := by
  induction ls with
  | nil => intro h; simp
  | cons l ls ih =>
    intro h
    simp only [List.foldl_cons, List.map_cons]
    rw [removeIfFound_traced os h [] l, removePass_traced os ls]
    cases hl : os.Lstat l h with
    | none =>
      simp only [List.nil_append]
      exact List.Sublist.cons₂ _ (ih _)
    | some e0 =>
      simp only [List.nil_append]
      exact List.Sublist.cons _ (ih _)

/-- The deregistration phase of `Uninstall` is the deregistration the
specification describes. -/
theorem uninstallDeregister_spec {σ : Type} (os : Syscalls σ) (s : Config) (h : σ) :
    uninstallDeregister os s h = specDeregistered os s.Name h := by
  obtain ⟨p2, p3, p4, p5, p0, p1, p6⟩ := rcPaths s.Name
  unfold uninstallDeregister specDeregistered toolset
  by_cases hc : IsNotExist (os.Stat "/sbin/chkconfig" h) = false
  · simp [hc]
  · by_cases hd : IsNotExist (os.Stat "/usr/sbin/update-rc.d" h) = false
    · simp [hc, hd]
    · simp only [hc, hd, Bool.not_eq_false] at *
      simp [hc, hd, specRunlevelLinks, removeIfFound, p2, p3, p4, p5, p0, p1, p6]

/-- The deregistration on a recording host: the host it leaves and the calls it
records, by toolset. -/
theorem specDeregistered_traced {σ : Type} (os : Syscalls σ) (name : String)
    (h : σ) (t : List Call) :
    specDeregistered (traced os) name (h, t) =
      (specDeregistered os name h,
        t ++ (match toolset os h with
              | Toolset.chkconfig => [Call.run ["/sbin/chkconfig", "--del", name]]
              | Toolset.updateRcD => [Call.run ["/usr/sbin/update-rc.d", "-f", name, "remove"]]
              | Toolset.links =>
                ((specRunlevelLinks name).foldl (removeIfFound (traced os)) (h, [])).2)) := by
  unfold specDeregistered
  rw [toolset_traced]
  cases ht : toolset os h with
  | chkconfig => simp [traced]
  | updateRcD => simp [traced]
  | links => exact removePass_traced os (specRunlevelLinks name) h t

/-- What `Uninstall` returns and leaves, for a configuration that is not a user
service: the error of removing the init script after the deregistration, and on
success the host with the four log paths removed. -/
theorem uninstall_eq {σ : Type} (os : Syscalls σ) (s : Config) (h : σ)
    (hu : s.UserService = false) :
    Uninstall os s h =
      (match (os.Remove ("/etc/init.d/" ++ s.Name) (specDeregistered os s.Name h)).1 with
       | some err =>
         (some err, (os.Remove ("/etc/init.d/" ++ s.Name) (specDeregistered os s.Name h)).2)
       | none =>
         (none,
           (os.Remove ("/var/log/opsramp/" ++ s.Name ++ ".err")
             (os.Remove ("/var/log/opsramp/" ++ s.Name ++ ".log")
               (os.Remove ("/var/log/" ++ s.Name ++ ".err")
                 (os.Remove ("/var/log/" ++ s.Name ++ ".log")
                   (os.Remove ("/etc/init.d/" ++ s.Name)
                     (specDeregistered os s.Name h)).2).2).2).2).2)) := by
  unfold Uninstall
  rw [configPath_ok s hu, uninstallDeregister_spec]
  simp only []
  cases hR : os.Remove ("/etc/init.d/" ++ s.Name) (specDeregistered os s.Name h) with
  | mk e0 h2 =>
    cases e0 with
    | none => rfl
    | some err => rfl

/-- C4 as stated fails: on a host without the init script `Uninstall` does not
succeed and does not delete the log files.  It returns the error of removing
`/etc/init.d/svc`, the host is unchanged, the only call is that removal, and
the log file `/var/log/svc.log` is still there. -/
theorem uninstall_stops_without_init_script :
    orphanHost.lookup "/etc/init.d/svc" = none ∧
    orphanHost.lookup "/var/log/svc.log" = some (Node.file "started\n" 0o644) ∧
    Uninstall linux demoConfig orphanHost
      = (some (GoError.pathError "remove" "/etc/init.d/svc" Errno.ENOENT), orphanHost) ∧
    (Uninstall (traced linux) demoConfig (orphanHost, [])).2.2
      = [Call.Remove "/etc/init.d/svc"] :=
  ⟨rfl, rfl, rfl, rfl⟩

/-- C4, as the code has it.  For a configuration that is not a user service,
a host `h` and an `Install` that reached registration on a host `hi` with the
same toolset as `h`: `Install` registered with `chkconfig --add`, with
`update-rc.d <name> defaults`, or by attempting the seven runlevel links; and
`Uninstall` on `h` undoes that same mechanism: `chkconfig --del`,
`update-rc.d -f <name> remove`, or one pass over the same seven paths that
removes each one `os.Lstat` finds and nothing else.  It then removes
`/etc/init.d/<name>`.  When that removal fails `Uninstall` returns its error
and makes no further call; when it succeeds `Uninstall` removes the four log
paths in order and returns `nil`, whatever those removals and the links
return. -/
theorem uninstall_mirrors_install {σ : Type} (os : Syscalls σ) (cmd : String → String)
    (s : Config) (h0 h1 h2 hi h : σ) (path : String) (e : GoError)
    (hu : s.UserService = false)
    (hstat : os.Stat ("/etc/init.d/" ++ s.Name) h0 = some e)
    (hcreate : os.Create ("/etc/init.d/" ++ s.Name) h0 = (none, h1))
    (hexec : os.execPath s h1 = Except.ok path)
    (hwrite : os.Write ("/etc/init.d/" ++ s.Name) (sysvScript cmd ⟨s, path⟩) h1 = (none, h2))
    (hchmod : os.Chmod ("/etc/init.d/" ++ s.Name) 0o755 h2 = (none, hi))
    (htool : toolset os hi = toolset os h) :
    (Install (traced os) cmd s (h0, [])).2.2 =
      [ Call.Create ("/etc/init.d/" ++ s.Name),
        Call.Write ("/etc/init.d/" ++ s.Name) (sysvScript cmd ⟨s, path⟩),
        Call.Chmod ("/etc/init.d/" ++ s.Name) 0o755 ] ++
      (match toolset os h with
       | Toolset.chkconfig => [Call.run ["/sbin/chkconfig", "--add", s.Name]]
       | Toolset.updateRcD => [Call.run ["/usr/sbin/update-rc.d", s.Name, "defaults"]]
       | Toolset.links =>
         (specRunlevelLinks s.Name).map (Call.Symlink ("/etc/init.d/" ++ s.Name))) ∧
    Uninstall os s h =
      (match (os.Remove ("/etc/init.d/" ++ s.Name) (specDeregistered os s.Name h)).1 with
       | some err =>
         (some err, (os.Remove ("/etc/init.d/" ++ s.Name) (specDeregistered os s.Name h)).2)
       | none =>
         (none,
           (os.Remove ("/var/log/opsramp/" ++ s.Name ++ ".err")
             (os.Remove ("/var/log/opsramp/" ++ s.Name ++ ".log")
               (os.Remove ("/var/log/" ++ s.Name ++ ".err")
                 (os.Remove ("/var/log/" ++ s.Name ++ ".log")
                   (os.Remove ("/etc/init.d/" ++ s.Name)
                     (specDeregistered os s.Name h)).2).2).2).2).2)) ∧
    (Uninstall (traced os) s (h, [])).2.2 =
      (match toolset os h with
       | Toolset.chkconfig => [Call.run ["/sbin/chkconfig", "--del", s.Name]]
       | Toolset.updateRcD => [Call.run ["/usr/sbin/update-rc.d", "-f", s.Name, "remove"]]
       | Toolset.links =>
         ((specRunlevelLinks s.Name).foldl (removeIfFound (traced os)) (h, [])).2) ++
      Call.Remove ("/etc/init.d/" ++ s.Name) ::
      (match (os.Remove ("/etc/init.d/" ++ s.Name) (specDeregistered os s.Name h)).1 with
       | some _ => []
       | none =>
         [ Call.Remove ("/var/log/" ++ s.Name ++ ".log"),
           Call.Remove ("/var/log/" ++ s.Name ++ ".err"),
           Call.Remove ("/var/log/opsramp/" ++ s.Name ++ ".log"),
           Call.Remove ("/var/log/opsramp/" ++ s.Name ++ ".err") ]) ∧
    (((specRunlevelLinks s.Name).foldl (removeIfFound (traced os)) (h, [])).2).Sublist
      ((specRunlevelLinks s.Name).map Call.Remove) := by
  refine ⟨?_, uninstall_eq os s h hu, ?_, removePass_sublist os _ h⟩
  · have hI : Install (traced os) cmd s (h0, []) =
        (none, installRegister (traced os) s ("/etc/init.d/" ++ s.Name)
          (hi, [ Call.Create ("/etc/init.d/" ++ s.Name),
                 Call.Write ("/etc/init.d/" ++ s.Name) (sysvScript cmd ⟨s, path⟩),
                 Call.Chmod ("/etc/init.d/" ++ s.Name) 0o755 ])) := by
      simp [Install, configPath, hu, traced, hstat, hcreate, hexec, hwrite, hchmod]
    rw [hI]
    simp only []
    rw [installRegister_traced, htool]
  · rw [uninstall_eq (traced os) s (h, []) hu, specDeregistered_traced]
    have hfst : ((traced os).Remove ("/etc/init.d/" ++ s.Name)
        (specDeregistered os s.Name h, [] ++
          (match toolset os h with
           | Toolset.chkconfig => [Call.run ["/sbin/chkconfig", "--del", s.Name]]
           | Toolset.updateRcD => [Call.run ["/usr/sbin/update-rc.d", "-f", s.Name, "remove"]]
           | Toolset.links =>
             ((specRunlevelLinks s.Name).foldl (removeIfFound (traced os)) (h, [])).2))).1 =
        (os.Remove ("/etc/init.d/" ++ s.Name) (specDeregistered os s.Name h)).1 := rfl
    cases hR : (os.Remove ("/etc/init.d/" ++ s.Name) (specDeregistered os s.Name h)).1 with
    | none =>
      rw [hR] at hfst
      simp only [hfst]
      simp [traced]
    | some err =>
      rw [hR] at hfst
      simp only [hfst]
      simp [traced]

theorem uninstall_mirrors_install_witness :
    (Install linux demoCmd demoConfig bareHost).1 = none ∧
    Uninstall linux demoConfig (Install linux demoCmd demoConfig bareHost).2
      = (none, bareHost) ∧
    (Uninstall (traced linux) demoConfig
        ((Install linux demoCmd demoConfig bareHost).2, [])).2.2 =
      [ Call.Remove "/etc/rc2.d/S50svc",
        Call.Remove "/etc/rc3.d/S50svc",
        Call.Remove "/etc/rc5.d/S50svc",
        Call.Remove "/etc/rc0.d/K02svc",
        Call.Remove "/etc/rc1.d/K02svc",
        Call.Remove "/etc/rc6.d/K02svc",
        Call.Remove "/etc/init.d/svc",
        Call.Remove "/var/log/svc.log",
        Call.Remove "/var/log/svc.err",
        Call.Remove "/var/log/opsramp/svc.log",
        Call.Remove "/var/log/opsramp/svc.err" ] :=
  ⟨rfl,
    (uninstall_mirrors_install linux demoCmd demoConfig bareHost
      (linux.Create "/etc/init.d/svc" bareHost).2
      (linux.Write "/etc/init.d/svc" (sysvScript demoCmd ⟨demoConfig, "/opt/svc/bin/svc"⟩)
        (linux.Create "/etc/init.d/svc" bareHost).2).2
      (linux.Chmod "/etc/init.d/svc" 0o755
        (linux.Write "/etc/init.d/svc" (sysvScript demoCmd ⟨demoConfig, "/opt/svc/bin/svc"⟩)
          (linux.Create "/etc/init.d/svc" bareHost).2).2).2
      (Install linux demoCmd demoConfig bareHost).2
      "/opt/svc/bin/svc" (GoError.pathError "stat" "/etc/init.d/svc" Errno.ENOENT)
      rfl rfl rfl rfl rfl rfl rfl).2.1.trans rfl,
    rfl⟩

/-! ## Control script: theorems -/

theorem is_running_iff {P : Type} (E : Procs P) (w : World P) :
    is_running E w = true ↔ ∃ words, w.pid_file = some words ∧ E.ps words w.procs = true := by
  unfold is_running get_pid
  cases w.pid_file <;> simp

theorem pid_file_of_running {P : Type} (E : Procs P) (w : World P)
    (hrun : is_running E w = true) : w.pid_file = some (get_pid w) := by
  unfold is_running at hrun
  unfold get_pid
  cases h : w.pid_file with
  | none => rw [h] at hrun; simp at hrun
  | some words => rfl

theorem is_running_echo {P : Type} (E : Procs P) (text : String) (w : World P) :
    is_running E (echo text w) = is_running E w := rfl

theorem is_running_echo_n {P : Type} (E : Procs P) (text : String) (w : World P) :
    is_running E (echo_n text w) = is_running E w := rfl

theorem script_start {P : Type} (E : Procs P) (v : Vars) (w : World P) :
    script E v "start" w = exitStatus (start E v w) := by
  simp [script]

theorem script_stop {P : Type} (E : Procs P) (v : Vars) (w : World P) :
    script E v "stop" w = exitStatus (stop E v w) := by
  have h1 : ("stop" = "start") = False := by decide
  simp [script, h1]

theorem script_restart {P : Type} (E : Procs P) (v : Vars) (w : World P) :
    script E v "restart" w = exitStatus (restart E v w) := by
  have h1 : ("restart" = "start") = False := by decide
  have h2 : ("restart" = "stop") = False := by decide
  simp [script, h1, h2]

theorem script_status {P : Type} (E : Procs P) (v : Vars) (w : World P) :
    script E v "status" w = exitStatus (status E v w) := by
  have h1 : ("status" = "start") = False := by decide
  have h2 : ("status" = "stop") = False := by decide
  have h3 : ("status" = "restart") = False := by decide
  simp [script, h1, h2, h3]

/-- The sub-invocations of `restart` are the script run with that argument. -/
theorem restart_eq {P : Type} (E : Procs P) (v : Vars) (w : World P) :
    restart E v w =
      if is_running E (script E v "stop" w).2 then
        (some 1, echo "Unable to stop, will not attempt to start" (script E v "stop" w).2)
      else
        (none, (script E v "start" (script E v "stop" w).2).2) := by
  rw [script_stop, script_start]
  rfl

theorem pollChild_found {P : Type} (E : Procs P) (ppid : String) :
    ∀ (n k : Nat) (p : P), k < n →
      (∀ j, j < k → E.pgrep ppid (E.sleep^[j] p) = []) →
      E.pgrep ppid (E.sleep^[k] p) ≠ [] →
      pollChild E ppid n p = (E.pgrep ppid (E.sleep^[k] p), E.sleep^[k] p) := by
  intro n
  induction n with
  | zero => intro k p hk; omega
  | succ n ih =>
    intro k p hk hnone hsome
    cases k with
    | zero =>
      simp only [Function.iterate_zero, id_eq] at hsome ⊢
      simp [pollChild, hsome]
    | succ k =>
      have h0 : E.pgrep ppid p = [] := hnone 0 (Nat.succ_pos k)
      have hstep : pollChild E ppid (n + 1) p = pollChild E ppid n (E.sleep p) := by
        simp [pollChild, h0]
      rw [hstep, Function.iterate_succ_apply]
      apply ih k (E.sleep p) (by omega)
      · intro j hj
        have := hnone (j + 1) (by omega)
        rwa [Function.iterate_succ_apply] at this
      · rwa [Function.iterate_succ_apply] at hsome

theorem pollChild_none {P : Type} (E : Procs P) (ppid : String) :
    ∀ (n : Nat) (p : P), (∀ k, k < n → E.pgrep ppid (E.sleep^[k] p) = []) →
      pollChild E ppid n p = ([], E.sleep^[n] p) := by
  intro n
  induction n with
  | zero => intro p _; rfl
  | succ n ih =>
    intro p hnone
    have h0 : E.pgrep ppid p = [] := hnone 0 (Nat.succ_pos n)
    have hstep : pollChild E ppid (n + 1) p = pollChild E ppid n (E.sleep p) := by
      simp [pollChild, h0]
    rw [hstep, Function.iterate_succ_apply]
    apply ih (E.sleep p)
    intro k hk
    have := hnone (k + 1) (by omega)
    rwa [Function.iterate_succ_apply] at this

theorem pollStopped_pid_file {P : Type} (E : Procs P) :
    ∀ (n : Nat) (w : World P), (pollStopped E n w).pid_file = w.pid_file := by
  intro n
  induction n with
  | zero => intro w; rfl
  | succ n ih =>
    intro w
    unfold pollStopped
    by_cases h : is_running E w = true
    · simp only [h, Bool.not_true, Bool.false_eq_true, if_false]
      rw [ih]
      rfl
    · simp [h]

theorem pollStopped_alive {P : Type} (E : Procs P) (words : List String) :
    ∀ (n : Nat) (w : World P), w.pid_file = some words →
      (∀ k, k < n → E.ps words (E.sleep^[k] w.procs) = true) →
      (pollStopped E n w).procs = E.sleep^[n] w.procs := by
  intro n
  induction n with
  | zero => intro w _ _; rfl
  | succ n ih =>
    intro w hw halive
    have hrun : is_running E w = true :=
      (is_running_iff E w).2 ⟨words, hw, halive 0 (Nat.succ_pos n)⟩
    unfold pollStopped
    simp only [hrun, Bool.not_true, Bool.false_eq_true, if_false]
    rw [ih _ (by simpa [echo_n] using hw), Function.iterate_succ_apply]
    · rfl
    · intro k hk
      have := halive (k + 1) (by omega)
      rwa [Function.iterate_succ_apply] at this

/-- C5: the script invoked with `status` exits with 0 exactly when the pid file
exists and the `ps` probe on its words succeeds, and with 1 otherwise; it
changes neither the pid file nor the process table. -/
theorem status_reports_liveness {P : Type} (E : Procs P) (v : Vars) (w : World P) :
    ((script E v "status" w).1 = 0 ↔
      ∃ words, w.pid_file = some words ∧ E.ps words w.procs = true) ∧
    ((script E v "status" w).1 ≠ 0 → (script E v "status" w).1 = 1) ∧
    (script E v "status" w).2.pid_file = w.pid_file ∧
    (script E v "status" w).2.procs = w.procs := by
  rw [script_status, ← is_running_iff]
  unfold status
  by_cases h : is_running E w = true
  · simp [h, exitStatus, echo]
  · simp [h, exitStatus, echo]

/-- C6 fails on the code for `restart`: when the launch fails at once (the
launcher is gone and no worker appears), `start` exits 1, but `restart` from
the same state exits 0 although the service is not running afterwards. -/
theorem restart_hides_failed_start :
    (script (demoProcs failingScenario) demoVars "start" stoppedWorld).1 = 1 ∧
    (script (demoProcs failingScenario) demoVars "restart" stoppedWorld).1 = 0 ∧
    is_running (demoProcs failingScenario)
      (script (demoProcs failingScenario) demoVars "restart" stoppedWorld).2 = false ∧
    (script (demoProcs failingScenario) demoVars "restart" stoppedWorld).2.stdout =
      [ "Not running\n", "Starting svc\n",
        "Unable to start, see /var/log/opsramp/svc.log and /var/log/opsramp/svc.err\n" ] := by
  decide

/-- The exit status of `restart` depends on the stop sub-invocation alone: 1
when the service is still running after it, 0 otherwise, whatever the start
sub-invocation returns. -/
theorem restart_status {P : Type} (E : Procs P) (v : Vars) (w : World P) :
    (script E v "restart" w).1 =
      if is_running E (script E v "stop" w).2 then 1 else 0 := by
  rw [script_restart, restart_eq]
  by_cases h : is_running E (script E v "stop" w).2 = true
  · simp [h, exitStatus]
  · simp [h, exitStatus]

/-- C7: when the service is still detected as running after the stop
sub-invocation of `restart`, the script exits with 1 and the state it leaves
is the state the stop sub-invocation left, with one more message on standard
output: the pid file and the process table are not touched again, so nothing
is launched.  This holds for every process table, also one that records each
launch. -/
theorem restart_aborts_when_running {P : Type} (E : Procs P) (v : Vars) (w : World P)
    (hrun : is_running E (script E v "stop" w).2 = true) :
    script E v "restart" w =
      (1, echo "Unable to stop, will not attempt to start" (script E v "stop" w).2) ∧
    (script E v "restart" w).2.pid_file = (script E v "stop" w).2.pid_file ∧
    (script E v "restart" w).2.procs = (script E v "stop" w).2.procs := by
  have h : script E v "restart" w =
      (1, echo "Unable to stop, will not attempt to start" (script E v "stop" w).2) := by
    rw [script_restart, restart_eq]
    simp [hrun, exitStatus]
  rw [h]
  exact ⟨rfl, rfl, rfl⟩

theorem restart_aborts_when_running_witness :
    is_running (demoProcs directScenario)
      (script (demoProcs directScenario) demoVars "stop" stubbornWorld).2 = true ∧
    (script (demoProcs directScenario) demoVars "restart" stubbornWorld).1 = 1 ∧
    (script (demoProcs directScenario) demoVars "restart" stubbornWorld).2.pid_file
      = some ["42"] ∧
    (script (demoProcs directScenario) demoVars "restart" stubbornWorld).2.procs.launched
      = false :=
  ⟨by decide,
    congrArg Prod.fst
      (restart_aborts_when_running (demoProcs directScenario) demoVars stubbornWorld
        (by decide)).1,
    by decide, by decide⟩

/-- The stop branch when the service is running: the state at the final check
is the one the polling loop left; the branch exits 1 when the service is still
running there and otherwise removes the pid file. -/
theorem stop_running {P : Type} (E : Procs P) (v : Vars) (w : World P)
    (hrun : is_running E w = true) :
    stop E v w =
      if is_running E (pollStopped E 10
          { (echo_n ("Stopping " ++ v.name ++ "..") w) with
            procs := E.kill (get_pid w) w.procs }) then
        (some 1, echo "Not stopped; may still be shutting down or shutdown may have failed"
          (echo "" (pollStopped E 10
            { (echo_n ("Stopping " ++ v.name ++ "..") w) with
              procs := E.kill (get_pid w) w.procs })))
      else
        (none,
          { (echo "Stopped" (echo "" (pollStopped E 10
              { (echo_n ("Stopping " ++ v.name ++ "..") w) with
                procs := E.kill (get_pid w) w.procs }))) with pid_file := none }) := by
  unfold stop
  simp only [hrun, if_true]
  have hg : get_pid (echo_n ("Stopping " ++ v.name ++ "..") w) = get_pid w := rfl
  have hp : (echo_n ("Stopping " ++ v.name ++ "..") w).procs = w.procs := rfl
  rw [hg, hp]
  simp only [is_running_echo]
  split
  · rfl
  · congr 1
    split
    · rfl
    · rename_i hsome
      have hnone : (echo "Stopped" (echo "" (pollStopped E 10
          { (echo_n ("Stopping " ++ v.name ++ "..") w) with
            procs := E.kill (get_pid w) w.procs }))).pid_file = none := by
        cases hpf : (echo "Stopped" (echo "" (pollStopped E 10
          { (echo_n ("Stopping " ++ v.name ++ "..") w) with
            procs := E.kill (get_pid w) w.procs }))).pid_file with
        | none => rfl
        | some x => rw [hpf] at hsome; simp at hsome
      generalize (echo "Stopped" (echo "" (pollStopped E 10
          { (echo_n ("Stopping " ++ v.name ++ "..") w) with
            procs := E.kill (get_pid w) w.procs }))) = u at hnone ⊢
      cases u
      simp only at hnone
      subst hnone
      rfl

/-- C8 as stated fails: with a stale pid file (it names process 42, which is
not live) `stop` reports "Not running" and exits with 0, and the pid file is
still there with its contents. -/
theorem stop_leaves_stale_pid_file :
    is_running (demoProcs directScenario) staleWorld = false ∧
    (script (demoProcs directScenario) demoVars "stop" staleWorld).1 = 0 ∧
    (script (demoProcs directScenario) demoVars "stop" staleWorld).2.pid_file = some ["42"] ∧
    (script (demoProcs directScenario) demoVars "stop" staleWorld).2.stdout
      = ["Not running\n"] := by
  decide

/-- C8, as the code has it.  A `stop` that finds the service not running exits
with 0 and only prints "Not running": the pid file, stale or absent, stays as
it is.  A `stop` that finds the service running and exits with 0 leaves no pid
file and the `ps` probe on the words the pid file held fails.  When that probe
succeeds after the termination signal and after each of the 10 one-second
polls, `stop` exits with 1 and the pid file keeps its contents; and whenever
`stop` exits with a non-zero status, the status is 1 and the pid file is
unchanged. -/
theorem stop_outcomes {P : Type} (E : Procs P) (v : Vars) (w : World P) :
    (is_running E w = false → script E v "stop" w = (0, echo "Not running" w)) ∧
    (is_running E w = true → (script E v "stop" w).1 = 0 →
      (script E v "stop" w).2.pid_file = none ∧
      E.ps (get_pid w) (script E v "stop" w).2.procs = false) ∧
    (is_running E w = true →
      (∀ k, k ≤ 10 → E.ps (get_pid w) (E.sleep^[k] (E.kill (get_pid w) w.procs)) = true) →
      (script E v "stop" w).1 = 1 ∧
      (script E v "stop" w).2.pid_file = w.pid_file ∧
      (script E v "stop" w).2.procs = E.sleep^[10] (E.kill (get_pid w) w.procs)) ∧
    ((script E v "stop" w).1 ≠ 0 →
      (script E v "stop" w).1 = 1 ∧ (script E v "stop" w).2.pid_file = w.pid_file) := by
  have hpf : (pollStopped E 10
      { (echo_n ("Stopping " ++ v.name ++ "..") w) with
        procs := E.kill (get_pid w) w.procs }).pid_file = w.pid_file := by
    rw [pollStopped_pid_file]
    rfl
  refine ⟨?_, ?_, ?_, ?_⟩
  · intro hrun
    rw [script_stop]
    simp [stop, hrun, exitStatus]
  · intro hrun h0
    rw [script_stop, stop_running E v w hrun] at h0 ⊢
    by_cases hfin : is_running E (pollStopped E 10
        { (echo_n ("Stopping " ++ v.name ++ "..") w) with
          procs := E.kill (get_pid w) w.procs }) = true
    · rw [if_pos hfin] at h0
      exact absurd h0 (by simp [exitStatus])
    · rw [if_neg hfin]
      refine ⟨rfl, ?_⟩
      show E.ps (get_pid w) (pollStopped E 10
        { (echo_n ("Stopping " ++ v.name ++ "..") w) with
          procs := E.kill (get_pid w) w.procs }).procs = false
      cases hps : E.ps (get_pid w) (pollStopped E 10
        { (echo_n ("Stopping " ++ v.name ++ "..") w) with
          procs := E.kill (get_pid w) w.procs }).procs with
      | false => rfl
      | true =>
        exfalso
        apply hfin
        exact (is_running_iff E _).2
          ⟨get_pid w, by rw [hpf]; exact pid_file_of_running E w hrun, hps⟩
  · intro hrun halive
    have hprocs : (pollStopped E 10
        { (echo_n ("Stopping " ++ v.name ++ "..") w) with
          procs := E.kill (get_pid w) w.procs }).procs
        = E.sleep^[10] (E.kill (get_pid w) w.procs) := by
      exact pollStopped_alive E (get_pid w) 10
        { (echo_n ("Stopping " ++ v.name ++ "..") w) with
          procs := E.kill (get_pid w) w.procs }
        (pid_file_of_running E w hrun) (fun k hk => halive k (by omega))
    have hfin : is_running E (pollStopped E 10
        { (echo_n ("Stopping " ++ v.name ++ "..") w) with
          procs := E.kill (get_pid w) w.procs }) = true := by
      apply (is_running_iff E _).2
      refine ⟨get_pid w, by rw [hpf]; exact pid_file_of_running E w hrun, ?_⟩
      rw [hprocs]
      exact halive 10 (le_refl 10)
    rw [script_stop, stop_running E v w hrun, if_pos hfin]
    exact ⟨rfl, hpf, hprocs⟩
  · intro hne
    rw [script_stop] at hne ⊢
    by_cases hrun : is_running E w = true
    · rw [stop_running E v w hrun] at hne ⊢
      by_cases hfin : is_running E (pollStopped E 10
          { (echo_n ("Stopping " ++ v.name ++ "..") w) with
            procs := E.kill (get_pid w) w.procs }) = true
      · rw [if_pos hfin]
        exact ⟨rfl, hpf⟩
      · rw [if_neg hfin] at hne
        exact absurd rfl hne
    · simp [stop, hrun, exitStatus] at hne

theorem stop_outcomes_witness :
    (is_running (demoProcs directScenario) runningWorld = true ∧
      (script (demoProcs directScenario) demoVars "stop" runningWorld).1 = 0 ∧
      (script (demoProcs directScenario) demoVars "stop" runningWorld).2.pid_file = none ∧
      (demoProcs directScenario).ps ["42"]
        (script (demoProcs directScenario) demoVars "stop" runningWorld).2.procs = false) ∧
    (is_running (demoProcs directScenario) stubbornWorld = true ∧
      (script (demoProcs directScenario) demoVars "stop" stubbornWorld).1 = 1 ∧
      (script (demoProcs directScenario) demoVars "stop" stubbornWorld).2.pid_file
        = some ["42"]) :=
  ⟨⟨by decide, by decide,
      ((stop_outcomes (demoProcs directScenario) demoVars runningWorld).2.1
        (by decide) (by decide)).1,
      ((stop_outcomes (demoProcs directScenario) demoVars runningWorld).2.1
        (by decide) (by decide)).2⟩,
    ⟨by decide,
      ((stop_outcomes (demoProcs directScenario) demoVars stubbornWorld).2.2.1
        (by decide) (by decide)).1,
      ((stop_outcomes (demoProcs directScenario) demoVars stubbornWorld).2.2.1
        (by decide) (by decide)).2.1⟩⟩

/-- The start branch when the service is not running, given what the polling
loop returned. -/
theorem start_stopped {P : Type} (E : Procs P) (v : Vars) (w : World P)
    (hstopped : is_running E w = false) (cpid : List String) (p : P)
    (hpoll : pollChild E (E.launch w.procs).1 30 (E.launch w.procs).2 = (cpid, p)) :
    (cpid ≠ [] →
      (script E v "start" w).2.pid_file = some cpid ∧
      (script E v "start" w).2.procs
        = E.wait (E.launch w.procs).1 (E.kill9 (E.launch w.procs).1 p)) ∧
    (cpid = [] →
      (script E v "start" w).2.pid_file = some [(E.launch w.procs).1] ∧
      (script E v "start" w).2.procs = p) := by
  have hw1 : (echo ("Starting " ++ v.name) w).procs = w.procs := rfl
  rw [script_start]
  unfold start
  simp only [hstopped, Bool.false_eq_true, if_false, hw1, hpoll]
  constructor
  · intro hc
    simp only [hc, ne_eq, not_false_eq_true, if_true]
    split <;> exact ⟨rfl, rfl⟩
  · intro hc
    simp only [hc, ne_eq, not_true_eq_false, if_false]
    split <;> exact ⟨rfl, rfl⟩

theorem finish_status {P : Type} (E : Procs P) (m : String) (w2 : World P) :
    ((exitStatus (if (!is_running E w2) = true then (some 1, echo m w2) else (none, w2))).1 = 0 ↔
      is_running E
        (exitStatus (if (!is_running E w2) = true then (some 1, echo m w2) else (none, w2))).2
        = true) ∧
    ((exitStatus (if (!is_running E w2) = true then (some 1, echo m w2) else (none, w2))).1 ≠ 0 →
      (exitStatus (if (!is_running E w2) = true then (some 1, echo m w2) else (none, w2))).1
        = 1) := by
  cases h : is_running E w2 <;> simp [exitStatus, is_running_echo, h]

theorem start_status {P : Type} (E : Procs P) (v : Vars) (w : World P) :
    ((script E v "start" w).1 = 0 ↔ is_running E (script E v "start" w).2 = true) ∧
    ((script E v "start" w).1 ≠ 0 → (script E v "start" w).1 = 1) := by
  rw [script_start]
  unfold start
  by_cases hrun : is_running E w = true
  · simp [hrun, exitStatus, is_running_echo]
  · simp only [hrun, Bool.false_eq_true, if_false]
    exact finish_status E _ _

/-- C9: for a `start` on a service that is not running, with `$!` the pid the
launch returned: when the poll after `k < 30` sleeps is the first to print a
child, the pid file holds what that poll printed (the child, not `$!`) and the
launcher has been sent `kill -9` and waited for; when none of the 30 polls
prints a child, the pid file holds `$!` and 30 seconds have been slept.  In
both cases the exit status is 0 exactly when the pid file then passes the
liveness check, and 1 otherwise. -/
theorem start_records_pid {P : Type} (E : Procs P) (v : Vars) (w : World P)
    (hstopped : is_running E w = false) :
    (∀ k, k < 30 →
      (∀ j, j < k → E.pgrep (E.launch w.procs).1 (E.sleep^[j] (E.launch w.procs).2) = []) →
      E.pgrep (E.launch w.procs).1 (E.sleep^[k] (E.launch w.procs).2) ≠ [] →
      (script E v "start" w).2.pid_file
        = some (E.pgrep (E.launch w.procs).1 (E.sleep^[k] (E.launch w.procs).2)) ∧
      (script E v "start" w).2.procs
        = E.wait (E.launch w.procs).1
            (E.kill9 (E.launch w.procs).1 (E.sleep^[k] (E.launch w.procs).2))) ∧
    ((∀ k, k < 30 → E.pgrep (E.launch w.procs).1 (E.sleep^[k] (E.launch w.procs).2) = []) →
      (script E v "start" w).2.pid_file = some [(E.launch w.procs).1] ∧
      (script E v "start" w).2.procs = E.sleep^[30] (E.launch w.procs).2) ∧
    ((script E v "start" w).1 = 0 ↔ is_running E (script E v "start" w).2 = true) ∧
    ((script E v "start" w).1 ≠ 0 → (script E v "start" w).1 = 1) := by
  refine ⟨?_, ?_, start_status E v w⟩
  · intro k hk hnone hsome
    exact (start_stopped E v w hstopped _ _
      (pollChild_found E (E.launch w.procs).1 30 k (E.launch w.procs).2 hk hnone hsome)).1 hsome
  · intro hnone
    exact (start_stopped E v w hstopped _ _
      (pollChild_none E (E.launch w.procs).1 30 (E.launch w.procs).2 hnone)).2 rfl

theorem start_records_pid_witness :
    (is_running (demoProcs wrapperScenario) stoppedWorld = false ∧
      ((demoProcs wrapperScenario).launch stoppedWorld.procs).1 = "100" ∧
      (script (demoProcs wrapperScenario) demoVars "start" stoppedWorld).2.pid_file
        = some ["101"] ∧
      (script (demoProcs wrapperScenario) demoVars "start" stoppedWorld).2.procs.live
        = [⟨"101", "100", false⟩] ∧
      (script (demoProcs wrapperScenario) demoVars "start" stoppedWorld).1 = 0) ∧
    (is_running (demoProcs directScenario) stoppedWorld = false ∧
      (script (demoProcs directScenario) demoVars "start" stoppedWorld).2.pid_file
        = some ["100"] ∧
      (script (demoProcs directScenario) demoVars "start" stoppedWorld).1 = 0) :=
  ⟨⟨by decide, by decide,
      ((start_records_pid (demoProcs wrapperScenario) demoVars stoppedWorld (by decide)).1 2
        (by decide) (by decide) (by decide)).1,
      by decide, by decide⟩,
    ⟨by decide,
      ((start_records_pid (demoProcs directScenario) demoVars stoppedWorld (by decide)).2.1
        (by decide)).1,
      by decide⟩⟩

/-! ## Rendering: theorems -/

theorem foldl_step_single (cs : List Char) :
    ∀ (x : Lexer), x.mode = Mode.single → (∀ c, c ∈ cs → (c != '\x27') = true) →
      cs.foldl step x = { x with run := x.run ++ cs } := by
  induction cs with
  | nil => intro x _ _; simp
  | cons c cs ih =>
    intro x hx hcs
    have hc : (c == '\x27') = false := by
      have := hcs c (List.mem_cons_self c cs)
      simpa using this
    have hstep : step x c = { x with run := x.run ++ [c] } := by
      simp [step, hx, stepSingle, hc]
    rw [List.foldl_cons, hstep,
      ih { x with run := x.run ++ [c] } hx (fun d hd => hcs d (List.mem_cons_of_mem c hd))]
    simp

theorem foldl_step_double (cs : List Char) :
    ∀ (x : Lexer), x.mode = Mode.double →
      (∀ c, c ∈ cs → (c == '"' || c == '$' || c == '\\' || c == '\x60') = false) →
      cs.foldl step x = { x with run := x.run ++ cs } := by
  induction cs with
  | nil => intro x _ _; simp
  | cons c cs ih =>
    intro x hx hcs
    have hc := hcs c (List.mem_cons_self c cs)
    simp only [Bool.or_eq_false_iff] at hc
    obtain ⟨⟨⟨h1, h2⟩, h3⟩, h4⟩ := hc
    have hstep : step x c = { x with run := x.run ++ [c] } := by
      simp [step, hx, stepDouble, h1, h2, h3, h4]
    rw [List.foldl_cons, hstep,
      ih { x with run := x.run ++ [c] } hx (fun d hd => hcs d (List.mem_cons_of_mem c hd))]
    simp

theorem splitFields_plain (cs : List Char) :
    ∀ (cur : List Char), (∀ c, c ∈ cs → isIFS c = false) →
      splitFields cur cs = if cur ++ cs = [] then [] else [String.mk (cur ++ cs)] := by
  induction cs with
  | nil => intro cur _; simp [splitFields]
  | cons c cs ih =>
    intro cur hcs
    have hc := hcs c (List.mem_cons_self c cs)
    simp only [splitFields, hc, Bool.false_eq_true, if_false]
    rw [ih _ (fun d hd => hcs d (List.mem_cons_of_mem c hd))]
    simp

theorem cd_line_argv (env : String → String) (wd : String) (hne : wd ≠ "")
    (hq : quoteFree wd = true) :
    shArgv env ("            " ++ ("cd \x27" ++ wd ++ "\x27") ++ "                        ")
      = some ["cd", wd] := by
  have hdata : wd.data ≠ [] := by
    intro h
    apply hne
    cases wd
    simp_all
  have hpre : List.foldl step (List.foldl step Lexer.start "            ".data) "cd \x27".data =
      { mode := Mode.single, run := [], name := [], word := [], inWord := true,
        words := [[Piece.text "cd"]] } := by rfl
  have hmid := foldl_step_single wd.data
    { mode := Mode.single, run := [], name := [], word := [], inWord := true,
      words := [[Piece.text "cd"]] } rfl
    (by
      intro c hc
      unfold quoteFree at hq
      exact (List.all_eq_true.1 hq) c hc)
  unfold shArgv shWords
  simp only [String.data_append, List.foldl_append]
  rw [hpre, hmid]
  simp [step, stepSingle, stepPlain, Lexer.endWord, Lexer.flush, Lexer.finish, expandWord,
    expandWords, hdata]

theorem shellPlain_chars (name : String) (hp : shellPlain name = true) (c : Char)
    (hc : c ∈ name.data) :
    (c == '"' || c == '$' || c == '\\' || c == '\x60') = false ∧ isIFS c = false ∧
    (c == '*' || c == '?' || c == '[') = false := by
  unfold shellPlain at hp
  have := (List.all_eq_true.1 hp) c hc
  simp only [Bool.not_eq_true', Bool.or_eq_false_iff] at this ⊢
  tauto

theorem user_line_assignment (name : String) (hp : shellPlain name = true) :
    shAssignment ("user=" ++ ("\"" ++ name ++ "\"")) = some ("user", name) := by
  have hpre : List.foldl step (List.foldl step Lexer.start "user=".data) "\"".data =
      { mode := Mode.double, run := "user=".data, name := [], word := [], inWord := true,
        words := [] } := by rfl
  have hmid := foldl_step_double name.data
    { mode := Mode.double, run := "user=".data, name := [], word := [], inWord := true,
      words := [] } rfl
    (fun c hc => (shellPlain_chars name hp c hc).1)
  unfold shAssignment shWords
  simp only [String.data_append, List.foldl_append]
  rw [hpre, hmid]
  simp [step, stepDouble, Lexer.endWord, Lexer.flush, Lexer.finish]

theorem launch_line_argv (env : String → String) (name : String)
    (hsu : env "SU" = "/sbin/runuser" ∨ env "SU" = "/bin/su")
    (huser : env "user" = name) (hne : name ≠ "") (hp : shellPlain name = true) :
    shArgv env launchLine
      = some [env "SU", "-", name, "-s", "/bin/bash", "-c", env "cmd"] := by
  have hw : shWords launchLine = some
      [ [Piece.param "SU" false], [Piece.text "-"], [Piece.param "user" false],
        [Piece.text "-s"], [Piece.text "/bin/bash"], [Piece.text "-c"],
        [Piece.param "cmd" true] ] := by rfl
  have hdata : name.data ≠ [] := by
    intro h
    apply hne
    cases name
    simp_all
  have hg : hasGlob name = false := by
    unfold hasGlob
    rw [List.any_eq_false]
    intro c hc
    simpa using (shellPlain_chars name hp c hc).2.2
  have hf : splitFields [] name.data = [name] := by
    rw [splitFields_plain name.data [] (fun c hc => (shellPlain_chars name hp c hc).2.1)]
    simp [hdata]
  have hsug : hasGlob (env "SU") = false := by
    rcases hsu with h | h <;> rw [h] <;> rfl
  have hsuf : splitFields [] (env "SU").data = [env "SU"] := by
    rcases hsu with h | h <;> rw [h] <;> rfl
  unfold shArgv
  rw [hw]
  simp [expandWords, expandWord, huser, hg, hf, hsug, hsuf]

theorem launch_line_argv_nouser (env : String → String)
    (hsu : env "SU" = "/sbin/runuser" ∨ env "SU" = "/bin/su")
    (huser : env "user" = "") :
    shArgv env launchLine
      = some [env "SU", "-", "-s", "/bin/bash", "-c", env "cmd"] := by
  have hw : shWords launchLine = some
      [ [Piece.param "SU" false], [Piece.text "-"], [Piece.param "user" false],
        [Piece.text "-s"], [Piece.text "/bin/bash"], [Piece.text "-c"],
        [Piece.param "cmd" true] ] := by rfl
  have hsug : hasGlob (env "SU") = false := by
    rcases hsu with h | h <;> rw [h] <;> rfl
  have hsuf : splitFields [] (env "SU").data = [env "SU"] := by
    rcases hsu with h | h <;> rw [h] <;> rfl
  have hg : hasGlob "" = false := rfl
  have hf : splitFields [] "".data = [] := rfl
  unfold shArgv
  rw [hw]
  simp [expandWords, expandWord, huser, hg, hf, hsug, hsuf]

theorem foldl_append_acc (l : List String) :
    ∀ acc : String, l.foldl (fun r s => r ++ s) acc = acc ++ l.foldl (fun r s => r ++ s) "" := by
  induction l with
  | nil => intro acc; simp
  | cons x l ih =>
    intro acc
    simp only [List.foldl_cons]
    rw [ih (acc ++ x), ih ("" ++ x), String.empty_append, String.append_assoc]

theorem join_lines (a b : List String) :
    String.join (a ++ b) = String.join a ++ String.join b := by
  unfold String.join
  rw [List.foldl_append, foldl_append_acc b]

/-- C10 as stated fails.  With an empty run-as user the launch still goes
through the user-switch tool: the launch line is there, `$user` expands to no
argument and the command run is `/bin/su - -s /bin/bash -c <cmd>`.  With the
working directory `/srv/it's` the `cd` line has an open quote and is not a
`cd` into that directory, and with the working directory `/srv/a' 'b` the line
is a `cd` into `/srv/a`.  With the user `a b` the launch passes two arguments,
`a` and `b`, where the user is expected. -/
theorem emptyUser_still_switches :
    (demoConfig.UserName = "" ∧
      (startLines ⟨demoConfig, "/opt/svc/bin/svc"⟩)[6]? = some launchLine ∧
      (headLines demoCmd ⟨demoConfig, "/opt/svc/bin/svc"⟩)[18]? = some "    SU=/sbin/runuser" ∧
      (headLines demoCmd ⟨demoConfig, "/opt/svc/bin/svc"⟩)[20]? = some "    SU=/bin/su" ∧
      (headLines demoCmd ⟨demoConfig, "/opt/svc/bin/svc"⟩)[26]? = some "user=" ∧
      shArgv (demoEnv "") launchLine
        = some ["/bin/su", "-", "-s", "/bin/bash", "-c", "/opt/svc/bin/svc \"--port\" \"80\""]) ∧
    ((startLines ⟨{ demoConfig with WorkingDirectory := "/srv/it\x27s" }, "/opt/svc/bin/svc"⟩)[5]?
        = some "            cd \x27/srv/it\x27s\x27                        " ∧
      shArgv (demoEnv "") "            cd \x27/srv/it\x27s\x27                        " = none ∧
      (startLines
        ⟨{ demoConfig with WorkingDirectory := "/srv/a\x27 \x27b" }, "/opt/svc/bin/svc"⟩)[5]?
        = some "            cd \x27/srv/a\x27 \x27b\x27                        " ∧
      shArgv (demoEnv "") "            cd \x27/srv/a\x27 \x27b\x27                        "
        = some ["cd", "/srv/a", "b"]) ∧
    ((headLines demoCmd ⟨{ demoConfig with UserName := "a b" }, "/opt/svc/bin/svc"⟩)[26]?
        = some "user=\"a b\"" ∧
      shAssignment "user=\"a b\"" = some ("user", "a b") ∧
      shArgv (demoEnv "a b") launchLine
        = some ["/bin/su", "-", "a", "b", "-s", "/bin/bash", "-c",
            "/opt/svc/bin/svc \"--port\" \"80\""]) := by
  decide

/-- C10, as the code has it.  The text `Install` writes is the head lines, the
lines of the start branch and the tail lines, each followed by a newline.  The
head sets `SU` to `/sbin/runuser` or `/bin/su`, and the start branch has the
same launch line for every descriptor.  With an empty working directory no
line of the start branch is a `cd` command; with a non-empty one that has no
single quote, the line before the launch line is the command `cd` with exactly
that directory as its argument.  With an empty user name the script assigns
the empty value to `user` and the launch runs `$SU - -s /bin/bash -c <cmd>`;
with a non-empty user name without characters special to the shell the script
assigns exactly that name to `user` and the launch runs
`$SU - <name> -s /bin/bash -c <cmd>`. -/
theorem render_optional_fields (cmd : String → String) (data : TemplateData)
    (env : String → String)
    (hsu : env "SU" = "/sbin/runuser" ∨ env "SU" = "/bin/su") :
    sysvScript cmd data =
      String.join ((headLines cmd data).map (fun l => l ++ "\n")) ++
      String.join ((startLines data).map (fun l => l ++ "\n")) ++
      String.join (tailLines.map (fun l => l ++ "\n")) ∧
    (headLines cmd data)[18]? = some "    SU=/sbin/runuser" ∧
    (headLines cmd data)[20]? = some "    SU=/bin/su" ∧
    (startLines data)[6]? = some launchLine ∧
    (data.config.WorkingDirectory = "" →
      ∀ l, l ∈ startLines data → commandWord l ≠ "cd") ∧
    (data.config.WorkingDirectory ≠ "" → quoteFree data.config.WorkingDirectory = true →
      ∃ l, (startLines data)[5]? = some l ∧
        shArgv env l = some ["cd", data.config.WorkingDirectory]) ∧
    (data.config.UserName = "" →
      (headLines cmd data)[26]? = some "user=" ∧
      shAssignment "user=" = some ("user", "") ∧
      (env "user" = "" →
        shArgv env launchLine = some [env "SU", "-", "-s", "/bin/bash", "-c", env "cmd"])) ∧
    (data.config.UserName ≠ "" → shellPlain data.config.UserName = true →
      ∃ l, (headLines cmd data)[26]? = some l ∧
        shAssignment l = some ("user", data.config.UserName) ∧
        (env "user" = data.config.UserName →
          shArgv env launchLine
            = some [env "SU", "-", data.config.UserName, "-s", "/bin/bash", "-c",
                env "cmd"])) := by
  refine ⟨?_, rfl, rfl, rfl, ?_, ?_, ?_, ?_⟩
  · unfold sysvScript sysvScriptLines
    rw [List.map_append, List.map_append, join_lines, join_lines]
  · intro hwd
    have hl : startLines data = startLines ⟨demoConfig, ""⟩ := by
      simp [startLines, hwd, demoConfig]
    rw [hl]
    decide
  · intro hwd hq
    refine ⟨_, ?_, cd_line_argv env data.config.WorkingDirectory hwd hq⟩
    simp [startLines, hwd]
  · intro hu
    refine ⟨by simp [headLines, hu], by decide, ?_⟩
    intro huser
    exact launch_line_argv_nouser env hsu huser
  · intro hu hp
    refine ⟨_, ?_, user_line_assignment data.config.UserName hp, ?_⟩
    · simp [headLines, hu]
    · intro huser
      exact launch_line_argv env data.config.UserName hsu huser hu hp

theorem render_optional_fields_witness :
    (∀ l, l ∈ startLines ⟨demoConfig, "/opt/svc/bin/svc"⟩ → commandWord l ≠ "cd") ∧
    (∃ l,
      (startLines
        ⟨{ demoConfig with WorkingDirectory := "/srv/my app" }, "/opt/svc/bin/svc"⟩)[5]?
        = some l ∧
      shArgv (demoEnv "daemon") l = some ["cd", "/srv/my app"]) ∧
    (∃ l,
      (headLines demoCmd ⟨{ demoConfig with UserName := "daemon" }, "/opt/svc/bin/svc"⟩)[26]?
        = some l ∧
      shAssignment l = some ("user", "daemon") ∧
      (demoEnv "daemon" "user" = "daemon" →
        shArgv (demoEnv "daemon") launchLine
          = some [demoEnv "daemon" "SU", "-", "daemon", "-s", "/bin/bash", "-c",
              demoEnv "daemon" "cmd"])) :=
  ⟨(render_optional_fields demoCmd ⟨demoConfig, "/opt/svc/bin/svc"⟩ (demoEnv "daemon")
      (Or.inr rfl)).2.2.2.2.1 rfl,
    (render_optional_fields demoCmd
      ⟨{ demoConfig with WorkingDirectory := "/srv/my app" }, "/opt/svc/bin/svc"⟩
      (demoEnv "daemon") (Or.inr rfl)).2.2.2.2.2.1 (by decide) (by decide),
    (render_optional_fields demoCmd
      ⟨{ demoConfig with UserName := "daemon" }, "/opt/svc/bin/svc"⟩
      (demoEnv "daemon") (Or.inr rfl)).2.2.2.2.2.2.2 (by decide) (by decide)⟩

end Sysv
